import Mathlib

/-!
# Softborders chaincode: tokenized currency and interbank settlement

A shallow embedding of `chaincode/tokenized_currency` and
`chaincode/interbank_settlement`.

* Go `string` / `[]byte` values are `String`.
* Go `int` is the 64-bit two's-complement integer: values are `Int`, and every
  arithmetic result is reduced with `wrapInt`.
* `strconv.Atoi` / `strconv.Itoa` are modelled after the Go standard library,
  including the value `Atoi` returns next to an error (the chaincode drops the
  error when it parses a stored balance).
* The chaincode stub is explicit state: the committed world state plus the write
  set of the running invocation.
-/

namespace Softborders

/-! ## Machine integers -/

/-- Largest value of Go's 64-bit `int`. -/
def maxInt : Int := 9223372036854775807

/-- Smallest value of Go's 64-bit `int`. -/
def minInt : Int := -9223372036854775808

/-- Largest value of `uint64`. -/
def maxUint64 : Nat := 18446744073709551615

/-- Two's-complement reduction of a mathematical integer to Go's 64-bit `int`. -/
def wrapInt (x : Int) : Int := (x + 9223372036854775808) % 18446744073709551616 - 9223372036854775808

/-- A mathematical integer that is representable as a Go `int`. -/
def inRange (x : Int) : Prop := minInt ≤ x ∧ x ≤ maxInt

instance (x : Int) : Decidable (inRange x) := by unfold inRange; infer_instance

/-! ## strconv -/

/-- The two error values of `strconv.NumError.Err`. -/
inductive NumError where
  | ErrSyntax
  | ErrRange
  deriving DecidableEq, Repr

/-- Value of a decimal digit byte: `ch -= '0'; if ch > 9 { syntax error }`. -/
def digitVal (c : Char) : Option Nat :=
  if 48 ≤ c.toNat ∧ c.toNat ≤ 57 then some (c.toNat - 48) else none

/-- The digit loop of `strconv.ParseUint(s, 10, 64)`, with `n` the value read so far.
A byte that is no digit is a syntax error with value 0; a value that leaves
`uint64` is a range error with value `maxUint64`, reported at the digit where it
happens. -/
def parseUintLoop : List Char → Nat → Nat × Option NumError
  | [], n => (n, none)
  | c :: cs, n =>
    match digitVal c with
    | none => (0, some NumError.ErrSyntax)
    | some d =>
      if n ≥ maxUint64 / 10 + 1 then (maxUint64, some NumError.ErrRange)
      else if n * 10 + d > maxUint64 then (maxUint64, some NumError.ErrRange)
      else parseUintLoop cs (n * 10 + d)

/-- Model of `strconv.ParseUint(s, 10, 64)`: the empty string is a syntax error. -/
def ParseUint (s : List Char) : Nat × Option NumError :=
  match s with
  | [] => (0, some NumError.ErrSyntax)
  | _ :: _ => parseUintLoop s 0

/-- Model of `strconv.ParseInt(s, 10, 0)` with a 64-bit `int`: optional sign, then
`ParseUint`; a syntax error gives 0, a magnitude outside the signed range gives the
nearest bound together with a range error. -/
def ParseInt (s : List Char) : Int × Option NumError :=
  match s with
  | [] => (0, some NumError.ErrSyntax)
  | c :: cs =>
    let neg := c = '-'
    let body := if c = '+' ∨ c = '-' then cs else c :: cs
    match ParseUint body with
    | (_, some NumError.ErrSyntax) => (0, some NumError.ErrSyntax)
    | (un, e) =>
      if ¬ neg ∧ un ≥ 9223372036854775808 then (maxInt, some NumError.ErrRange)
      else if neg ∧ un > 9223372036854775808 then (minInt, some NumError.ErrRange)
      else (if neg then -(un : Int) else (un : Int), e)

/-- Model of `strconv.Atoi`: the returned pair is Go's `(int, error)`, the error
being `none` for `nil`. -/
def Atoi (s : String) : Int × Option NumError := ParseInt s.toList

/-- Decimal digit byte of `d < 10`. -/
def digitChar (d : Nat) : Char := Char.ofNat (48 + d)

/-- Decimal digits of `n`, most significant first, in front of `acc`; `fuel` bounds
the number of digits. -/
def natDigits : Nat → Nat → List Char → List Char
  | 0, _, acc => acc
  | fuel + 1, n, acc =>
    if n < 10 then digitChar n :: acc
    else natDigits fuel (n / 10) (digitChar (n % 10) :: acc)

/-- Model of `strconv.Itoa` on a 64-bit `int` (at most 19 digits and a sign). -/
def Itoa (i : Int) : String :=
  if i < 0 then String.mk ('-' :: natDigits 20 i.natAbs [])
  else String.mk (natDigits 20 i.natAbs [])

/-! ## Chaincode stub

The part of `shim.ChaincodeStubInterface` the chaincode uses. The host's store
failures are outside the model: `GetState`, `PutState` and `GetCreator` always
return a nil error here, so the `err != nil` branches that follow them in the
source have no counterpart below. -/

/-- World state of the ledger: key to stored bytes, `none` for a key without a
record (`GetState` returns nil). -/
abbrev Store := String → Option String

/-- State of the stub during one invocation: the committed world state, the write
set issued so far (newest first), the creator bytes, and whether `GetState` sees
the invocation's own writes (it does not on a Fabric peer, it does on the mock
stub; the chaincode is modelled for both). -/
structure Stub where
  state : Store
  writes : List (String × String)
  creator : String
  readYourWrites : Bool

/-- Newest value written to `key` in a write set. -/
def lookupWrite : List (String × String) → String → Option String
  | [], _ => none
  | (k, v) :: ws, key => if key = k then some v else lookupWrite ws key

/-- World state that results when the write set of the invocation is applied. -/
def commit (stub : Stub) : Store := fun key =>
  match lookupWrite stub.writes key with
  | some v => some v
  | none => stub.state key

/-- Stub at the start of an invocation: nothing written yet. -/
def newStub (state : Store) (creator : String) (readYourWrites : Bool) : Stub :=
  { state := state, writes := [], creator := creator, readYourWrites := readYourWrites }

/-- Model of `stub.GetState(key)`. -/
def GetState (stub : Stub) (key : String) : Option String :=
  if stub.readYourWrites then commit stub key else stub.state key

/-- Model of `stub.PutState(key, value)`: adds to the write set. -/
def PutState (stub : Stub) (key value : String) : Stub :=
  { stub with writes := (key, value) :: stub.writes }

/-- Model of `stub.GetCreator()`. -/
def GetCreator (stub : Stub) : String := stub.creator

/-- Model of `pb.Response` as built by `shim.Success` and `shim.Error`. -/
inductive Response where
  | Success (payload : String)
  | Error (message : String)
  deriving DecidableEq, Repr

/-- The response was built by `shim.Success`. -/
def Response.isSuccess : Response → Bool
  | Response.Success _ => true
  | Response.Error _ => false

/-! ## tokenized_currency -/

/-- Function `BalanceKey` of types.go: `fmt.Sprintf("balance:%s:%s", currency, accountID)`.
The settlement chaincode calls `BalanceKey` without defining one ("the tokenized
currency ledger uses the same key structure"), so both chaincodes use this one. -/
def BalanceKey (currency accountID : String) : String :=
  "balance:" ++ currency ++ ":" ++ accountID

/-- Function `checkCentralBank` of tokenized_currency.go: always true. -/
def checkCentralBank (_creator : String) : Bool := true

/-- The idiom `b := 0; if bytes != nil { b, _ = strconv.Atoi(string(bytes)) }`. -/
def readBalance (bytes : Option String) : Int :=
  match bytes with
  | none => 0
  | some b => (Atoi b).1

/-- Function `Mint` of tokenized_currency.go. -/
def Mint (stub : Stub) (args : List String) : Response × Stub :=
  match args with
  | [currency, accountID, amountArg] =>
    match Atoi amountArg with
    | (_, some _) => (Response.Error "Amount must be an integer", stub)
    | (amount, none) =>
      let creator := GetCreator stub
      if ¬ checkCentralBank creator then
        (Response.Error "Only central bank identities can mint tokens", stub)
      else
        let key := BalanceKey currency accountID
        let currentBalance := readBalance (GetState stub key)
        let newBalance := wrapInt (currentBalance + amount)
        let stub := PutState stub key (Itoa newBalance)
        (Response.Success ("Minted " ++ Itoa amount ++ " " ++ currency
          ++ " tokens for account " ++ accountID), stub)
  | _ => (Response.Error "Mint requires 3 arguments: currency, accountID, amount", stub)

/-- Function `Burn` of tokenized_currency.go. -/
def Burn (stub : Stub) (args : List String) : Response × Stub :=
  match args with
  | [currency, accountID, amountArg] =>
    match Atoi amountArg with
    | (_, some _) => (Response.Error "Amount must be an integer", stub)
    | (amount, none) =>
      let creator := GetCreator stub
      if ¬ checkCentralBank creator then
        (Response.Error "Only central bank identities can burn tokens", stub)
      else
        let key := BalanceKey currency accountID
        match GetState stub key with
        | none => (Response.Error "Account not found", stub)
        | some balanceBytes =>
          let currentBalance := (Atoi balanceBytes).1
          if currentBalance < amount then
            (Response.Error "Insufficient balance to burn", stub)
          else
            let newBalance := wrapInt (currentBalance - amount)
            let stub := PutState stub key (Itoa newBalance)
            (Response.Success ("Burned " ++ Itoa amount ++ " " ++ currency
              ++ " tokens from account " ++ accountID), stub)
  | _ => (Response.Error "Burn requires 3 arguments: currency, accountID, amount", stub)

/-- Function `Transfer` of tokenized_currency.go: both balances are read before either is
written, the sender's key is written first. -/
def Transfer (stub : Stub) (args : List String) : Response × Stub :=
  match args with
  | [currency, sender, receiver, amountArg] =>
    match Atoi amountArg with
    | (_, some _) => (Response.Error "Amount must be an integer", stub)
    | (amount, none) =>
      let senderKey := BalanceKey currency sender
      match GetState stub senderKey with
      | none => (Response.Error "Sender account not found", stub)
      | some senderBalanceBytes =>
        let senderBalance := (Atoi senderBalanceBytes).1
        if senderBalance < amount then
          (Response.Error "Insufficient balance in sender account", stub)
        else
          let senderBalance := wrapInt (senderBalance - amount)
          let receiverKey := BalanceKey currency receiver
          let receiverBalance := readBalance (GetState stub receiverKey)
          let receiverBalance := wrapInt (receiverBalance + amount)
          let stub := PutState stub senderKey (Itoa senderBalance)
          let stub := PutState stub receiverKey (Itoa receiverBalance)
          (Response.Success ("Transferred " ++ Itoa amount ++ " " ++ currency
            ++ " tokens from " ++ sender ++ " to " ++ receiver), stub)
  | _ => (Response.Error "Transfer requires 4 arguments: currency, sender, receiver, amount", stub)

/-- Function `QueryBalance` of tokenized_currency.go. -/
def QueryBalance (stub : Stub) (args : List String) : Response × Stub :=
  match args with
  | [currency, accountID] =>
    let key := BalanceKey currency accountID
    match GetState stub key with
    | none => (Response.Error "Account not found", stub)
    | some balanceBytes => (Response.Success balanceBytes, stub)
  | _ => (Response.Error "QueryBalance requires 2 arguments: currency and accountID", stub)

/-! ## interbank_settlement -/

/-- Function `SettleDomestic` of interbank_settlement.go. -/
def SettleDomestic (stub : Stub) (args : List String) : Response × Stub :=
  match args with
  | [currency, sender, receiver, amountArg] =>
    match Atoi amountArg with
    | (_, some _) => (Response.Error "Amount must be an integer", stub)
    | (amount, none) =>
      let senderKey := BalanceKey currency sender
      let receiverKey := BalanceKey currency receiver
      match GetState stub senderKey with
      | none => (Response.Error "Sender account not found", stub)
      | some senderBalanceBytes =>
        let senderBalance := (Atoi senderBalanceBytes).1
        if senderBalance < amount then
          (Response.Error "Insufficient funds in sender account", stub)
        else
          let senderBalance := wrapInt (senderBalance - amount)
          let receiverBalance := readBalance (GetState stub receiverKey)
          let receiverBalance := wrapInt (receiverBalance + amount)
          let stub := PutState stub senderKey (Itoa senderBalance)
          let stub := PutState stub receiverKey (Itoa receiverBalance)
          (Response.Success ("Domestic settlement of " ++ Itoa amount ++ " " ++ currency
            ++ " from " ++ sender ++ " to " ++ receiver ++ " complete"), stub)
  | _ => (Response.Error "SettleDomestic requires 4 arguments", stub)

/-- Function `SettleCrossBorder` of interbank_settlement.go: the sender's new balance is
written before the receiver's balance is read. -/
def SettleCrossBorder (stub : Stub) (args : List String) : Response × Stub :=
  match args with
  | [fromCurrency, toCurrency, sender, receiver, amountArg, rateArg] =>
    match Atoi amountArg with
    | (_, some _) => (Response.Error "Amount must be an integer", stub)
    | (amount, none) =>
      match Atoi rateArg with
      | (_, some _) => (Response.Error "Exchange rate must be an integer", stub)
      | (exchangeRate, none) =>
        let senderKey := BalanceKey fromCurrency sender
        match GetState stub senderKey with
        | none => (Response.Error "Sender account not found", stub)
        | some senderBalanceBytes =>
          let senderBalance := (Atoi senderBalanceBytes).1
          if senderBalance < amount then
            (Response.Error "Insufficient funds in sender account", stub)
          else
            let senderBalance := wrapInt (senderBalance - amount)
            let stub := PutState stub senderKey (Itoa senderBalance)
            let convertedAmount := wrapInt (amount * exchangeRate)
            let receiverKey := BalanceKey toCurrency receiver
            let receiverBalance := readBalance (GetState stub receiverKey)
            let receiverBalance := wrapInt (receiverBalance + convertedAmount)
            let stub := PutState stub receiverKey (Itoa receiverBalance)
            (Response.Success ("Cross-border settlement complete: " ++ Itoa amount ++ " "
              ++ fromCurrency ++ " debited from " ++ sender ++ " and " ++ Itoa convertedAmount
              ++ " " ++ toCurrency ++ " credited to " ++ receiver), stub)
  | _ => (Response.Error "SettleCrossBorder requires 6 arguments", stub)

/-! ## Notions used by the statements -/

/-- Balance of `(currency, accountID)` in a world state as the chaincode reads it
when crediting: 0 without a record, else the parsed bytes. -/
def balance (st : Store) (currency accountID : String) : Int :=
  readBalance (st (BalanceKey currency accountID))

/-- The empty world state. -/
def emptyStore : Store := fun _ => none

/-- A decimal integer as a string: an optional sign, then one or more digits. -/
def decimalInteger (s : String) : Bool :=
  match s.toList with
  | [] => false
  | c :: cs =>
    if c = '+' ∨ c = '-' then !cs.isEmpty && cs.all Char.isDigit
    else (c :: cs).all Char.isDigit

/-- World state holding the listed records (an earlier entry shadows a later one
with the same key). -/
def storeOf (records : List (String × String)) : Store := fun key => lookupWrite records key

/-- A stored record that the chaincode reads without error as an integer `≥ 0`. -/
def nonNegRecord (v : String) : Prop := (Atoi v).2 = none ∧ 0 ≤ (Atoi v).1

instance (v : String) : Decidable (nonNegRecord v) := by unfold nonNegRecord; infer_instance

/-- Every balance record of the world state is a non-negative integer. -/
def NonNegative (st : Store) : Prop :=
  ∀ c a v, st (BalanceKey c a) = some v → nonNegRecord v

/-- The five operations that write balances. -/
inductive Operation where
  | mint
  | burn
  | transfer
  | settleDomestic
  | settleCrossBorder
  deriving DecidableEq, Repr

/-- Dispatch of an operation to its chaincode function. -/
def Operation.run : Operation → Stub → List String → Response × Stub
  | Operation.mint => Mint
  | Operation.burn => Burn
  | Operation.transfer => Transfer
  | Operation.settleDomestic => SettleDomestic
  | Operation.settleCrossBorder => SettleCrossBorder

/-- The amount argument of a call (and the exchange rate of a cross-border settlement)
is read by the chaincode as a value `≥ 0`. Calls with another number of arguments
carry no amount. -/
def Operation.amountsNonneg (op : Operation) (args : List String) : Prop :=
  match op, args with
  | Operation.mint, [_, _, amt] => 0 ≤ (Atoi amt).1
  | Operation.burn, [_, _, amt] => 0 ≤ (Atoi amt).1
  | Operation.transfer, [_, _, _, amt] => 0 ≤ (Atoi amt).1
  | Operation.settleDomestic, [_, _, _, amt] => 0 ≤ (Atoi amt).1
  | Operation.settleCrossBorder, [_, _, _, _, amt, rate] =>
    0 ≤ (Atoi amt).1 ∧ 0 ≤ (Atoi rate).1
  | _, _ => True

/-- The credit of a call does not leave the 64-bit range: the credited balance plus
the amount and, for a cross-border settlement, the product of amount and rate. -/
def Operation.noOverflow (st : Store) (op : Operation) (args : List String) : Prop :=
  match op, args with
  | Operation.mint, [c, a, amt] => inRange (balance st c a + (Atoi amt).1)
  | Operation.transfer, [c, _, r, amt] => inRange (balance st c r + (Atoi amt).1)
  | Operation.settleDomestic, [c, _, r, amt] => inRange (balance st c r + (Atoi amt).1)
  | Operation.settleCrossBorder, [_, tc, _, r, amt, rate] =>
    inRange ((Atoi amt).1 * (Atoi rate).1)
      ∧ inRange (balance st tc r + (Atoi amt).1 * (Atoi rate).1)
  | _, _ => True

/-- Scenario, step 1: `Mint("RWF", "A1", "1000")` on the empty store. -/
def scenarioMint (ryw : Bool) : Response × Stub :=
  Mint (newStub emptyStore "" ryw) ["RWF", "A1", "1000"]

/-- Scenario, step 2: `Transfer("RWF", "A1", "A2", "400")` on the store left by step 1. -/
def scenarioTransfer (ryw : Bool) : Response × Stub :=
  Transfer (newStub (commit (scenarioMint ryw).2) "" ryw) ["RWF", "A1", "A2", "400"]

/-- Scenario, step 3: `SettleCrossBorder("RWF", "KES", "A1", "B1", "100", "5")` on the store
left by step 2. -/
def scenarioSettle (ryw : Bool) : Response × Stub :=
  SettleCrossBorder (newStub (commit (scenarioTransfer ryw).2) "" ryw)
    ["RWF", "KES", "A1", "B1", "100", "5"]

/-- Scenario, step 4: `Burn("RWF", "A1", "10000")` on the store left by step 3. -/
def scenarioBurn (ryw : Bool) : Response × Stub :=
  Burn (newStub (commit (scenarioSettle ryw).2) "" ryw) ["RWF", "A1", "10000"]

/-- The failure taxonomy of the specification (§7). -/
inductive FailureKind where
  | InvalidArgument
  | NotFound
  | InsufficientFunds
  | Unauthorized
  | StoreFailure
  deriving DecidableEq, Repr

/-- Kind of failure a response stands for, read off the message the chaincode puts
into `shim.Error`: wrong argument count and non-integer amount or rate are
invalid arguments, a missing debit source is not-found, a balance below the amount
is insufficient funds, a refused creator is unauthorized, and the messages after
a failed stub call are store failures. A success has no kind. -/
def failureKind : Response → Option FailureKind
  | Response.Success _ => none
  | Response.Error msg =>
    if msg ∈ ["Mint requires 3 arguments: currency, accountID, amount",
        "Burn requires 3 arguments: currency, accountID, amount",
        "Transfer requires 4 arguments: currency, sender, receiver, amount",
        "QueryBalance requires 2 arguments: currency and accountID",
        "SettleDomestic requires 4 arguments",
        "SettleCrossBorder requires 6 arguments",
        "Amount must be an integer",
        "Exchange rate must be an integer"] then some FailureKind.InvalidArgument
    else if msg ∈ ["Account not found", "Sender account not found"] then
      some FailureKind.NotFound
    else if msg ∈ ["Insufficient balance to burn", "Insufficient balance in sender account",
        "Insufficient funds in sender account"] then some FailureKind.InsufficientFunds
    else if msg ∈ ["Only central bank identities can mint tokens",
        "Only central bank identities can burn tokens"] then some FailureKind.Unauthorized
    else some FailureKind.StoreFailure

/-- The string contains the separator byte `:` of the key scheme. -/
def hasSeparator (s : String) : Prop := ':' ∈ s.toList

instance (s : String) : Decidable (hasSeparator s) := by unfold hasSeparator; infer_instance

/-- The `(currency, account)` pairs a call addresses: the credited account of `Mint`,
the debited one of `Burn`, sender and receiver of the transfers and settlements.
A call with another number of arguments addresses none. -/
def Operation.pairs (op : Operation) (args : List String) : List (String × String) :=
  match op, args with
  | Operation.mint, [c, a, _] => [(c, a)]
  | Operation.burn, [c, a, _] => [(c, a)]
  | Operation.transfer, [c, s, r, _] => [(c, s), (c, r)]
  | Operation.settleDomestic, [c, s, r, _] => [(c, s), (c, r)]
  | Operation.settleCrossBorder, [fc, tc, s, r, _, _] => [(fc, s), (tc, r)]
  | _, _ => []

/-- Supply of a currency over a list of accounts: the sum of their balances as the
chaincode reads them. -/
def supply (st : Store) (currency : String) (accounts : List String) : Int :=
  (accounts.map (balance st currency)).sum

/-! ## Machine integer facts -/

theorem wrapInt_of_inRange {x : Int} (h : inRange x) : wrapInt x = x := by
  unfold inRange minInt maxInt at h
  unfold wrapInt
  omega

theorem wrapInt_inRange (x : Int) : inRange (wrapInt x) := by
  unfold inRange minInt maxInt wrapInt
  omega

/-! ## Itoa and Atoi -/

theorem digitVal_digitChar {d : Nat} (h : d < 10) : digitVal (digitChar d) = some d := by
  interval_cases d <;> decide

theorem digitChar_ne_sign {d : Nat} (h : d < 10) :
    digitChar d ≠ '+' ∧ digitChar d ≠ '-' := by
  interval_cases d <;> decide

theorem parseUintLoop_digit {d n : Nat} (r : List Char) (hd : d < 10)
    (hn : n * 10 + d ≤ maxUint64) :
    parseUintLoop (digitChar d :: r) n = parseUintLoop r (n * 10 + d) := by
  have h1 : ¬ (n ≥ maxUint64 / 10 + 1) := by
    unfold maxUint64 at hn ⊢
    omega
  have h2 : ¬ (n * 10 + d > maxUint64) := by omega
  simp only [parseUintLoop, digitVal_digitChar hd, if_neg h1, if_neg h2]

theorem parseUintLoop_natDigits (fuel : Nat) :
    ∀ (n : Nat) (r : List Char), n < 10 ^ fuel → n ≤ maxUint64 →
      parseUintLoop (natDigits fuel n r) 0 = parseUintLoop r n := by
  induction fuel with
  | zero =>
    intro n r h _
    have : n = 0 := by simpa using h
    subst this
    rfl
  | succ f ih =>
    intro n r h hmax
    unfold natDigits
    by_cases hlt : n < 10
    · rw [if_pos hlt, parseUintLoop_digit r hlt (by omega)]
      simp
    · rw [if_neg hlt]
      have hdiv : n / 10 < 10 ^ f := by
        rw [Nat.div_lt_iff_lt_mul (by decide)]
        rw [pow_succ] at h
        exact h
      rw [ih (n / 10) _ hdiv (by omega)]
      rw [parseUintLoop_digit r (Nat.mod_lt n (by decide)) (by omega)]
      congr 1
      omega

theorem natDigits_head (fuel : Nat) :
    ∀ (n : Nat) (r : List Char),
      ∃ d rest, d < 10 ∧ natDigits (fuel + 1) n r = digitChar d :: rest := by
  induction fuel with
  | zero =>
    intro n r
    unfold natDigits
    by_cases hlt : n < 10
    · exact ⟨n, r, hlt, by rw [if_pos hlt]⟩
    · exact ⟨n % 10, r, Nat.mod_lt n (by decide), by rw [if_neg hlt]; rfl⟩
  | succ f ih =>
    intro n r
    unfold natDigits
    by_cases hlt : n < 10
    · exact ⟨n, r, hlt, by rw [if_pos hlt]⟩
    · rw [if_neg hlt]
      exact ih (n / 10) _

/-- Parsing what `Itoa` printed gives the number back, for every Go `int`. -/
theorem Atoi_Itoa {n : Int} (h : inRange n) : Atoi (Itoa n) = (n, none) := by
  unfold inRange minInt maxInt at h
  obtain ⟨d, rest, hd, hdig⟩ := natDigits_head 19 n.natAbs []
  have hloop : parseUintLoop (natDigits 20 n.natAbs []) 0 = (n.natAbs, none) := by
    rw [parseUintLoop_natDigits 20 n.natAbs [] (by omega) (by unfold maxUint64; omega)]
    rfl
  rw [hdig] at hloop
  obtain ⟨hplus, hminus⟩ := digitChar_ne_sign hd
  unfold Atoi Itoa
  by_cases hneg : n < 0
  · rw [if_pos hneg]
    have h1 : ¬ ((n.natAbs : Nat) > 9223372036854775808) := by omega
    simp only [String.toList, hdig, ParseInt, ParseUint]
    simp [hloop, h1]
    rw [abs_of_neg hneg]
    omega
  · rw [if_neg hneg]
    have h1 : ¬ ((n.natAbs : Nat) ≥ 9223372036854775808) := by omega
    simp only [String.toList, hdig, ParseInt, ParseUint]
    simp [hplus, hminus, hloop, h1]
    omega

/-! ## Keys and the stub -/

theorem BalanceKey_account_inj {c a b : String} (h : BalanceKey c a = BalanceKey c b) :
    a = b := by
  have hd := congrArg String.data h
  simp only [BalanceKey, String.data_append, List.append_assoc] at hd
  exact String.ext (List.append_cancel_left (List.append_cancel_left (List.append_cancel_left hd)))

theorem BalanceKey_ne {c a b : String} (h : a ≠ b) : BalanceKey c a ≠ BalanceKey c b :=
  fun hk => h (BalanceKey_account_inj hk)

@[simp] theorem GetState_newStub (st : Store) (cr : String) (ryw : Bool) (key : String) :
    GetState (newStub st cr ryw) key = st key := by
  cases ryw <;> simp [GetState, newStub, commit, lookupWrite]

@[simp] theorem GetState_fresh (st : Store) (cr : String) (ryw : Bool) (key : String) :
    GetState { state := st, writes := [], creator := cr, readYourWrites := ryw } key = st key :=
  GetState_newStub st cr ryw key

@[simp] theorem commit_newStub (st : Store) (cr : String) (ryw : Bool) :
    commit (newStub st cr ryw) = st := by
  funext key
  simp [newStub, commit, lookupWrite]

theorem commit_one (st : Store) (cr : String) (ryw : Bool) (k v key : String) :
    commit { state := st, writes := [(k, v)], creator := cr, readYourWrites := ryw } key
      = if key = k then some v else st key := by
  by_cases h : key = k <;> simp [commit, lookupWrite, h]

theorem commit_two (st : Store) (cr : String) (ryw : Bool) (k₂ v₂ k₁ v₁ key : String) :
    commit { state := st, writes := [(k₂, v₂), (k₁, v₁)], creator := cr, readYourWrites := ryw } key
      = if key = k₂ then some v₂ else if key = k₁ then some v₁ else st key := by
  simp only [commit, lookupWrite]
  split_ifs <;> rfl

theorem readBalance_Itoa {x : Int} (h : inRange x) : readBalance (some (Itoa x)) = x := by
  simp [readBalance, Atoi_Itoa h]

/-! ## What each operation returns -/

theorem Mint_bad_amount (stub : Stub) (c a amt : String) (h : (Atoi amt).2 ≠ none) :
    Mint stub [c, a, amt] = (Response.Error "Amount must be an integer", stub) := by
  rcases hA : Atoi amt with ⟨v, e⟩
  cases e with
  | none => simp [hA] at h
  | some e => simp [Mint, hA]

theorem Mint_ok (st : Store) (cr : String) (ryw : Bool) (c a amt : String) {n : Int}
    (hamt : Atoi amt = (n, none)) :
    Mint (newStub st cr ryw) [c, a, amt]
      = (Response.Success ("Minted " ++ Itoa n ++ " " ++ c ++ " tokens for account " ++ a),
          { state := st, writes := [(BalanceKey c a, Itoa (wrapInt (balance st c a + n)))],
            creator := cr, readYourWrites := ryw }) := by
  simp [Mint, hamt, checkCentralBank, balance, PutState, newStub]

theorem Burn_absent (st : Store) (cr : String) (ryw : Bool) (c a amt : String) {n : Int}
    (hamt : Atoi amt = (n, none)) (hrec : st (BalanceKey c a) = none) :
    Burn (newStub st cr ryw) [c, a, amt]
      = (Response.Error "Account not found", newStub st cr ryw) := by
  simp [Burn, hamt, checkCentralBank, hrec]

theorem Burn_insufficient (st : Store) (cr : String) (ryw : Bool) (c a amt : String) {n : Int}
    {vs : String} (hamt : Atoi amt = (n, none)) (hrec : st (BalanceKey c a) = some vs)
    (hlt : (Atoi vs).1 < n) :
    Burn (newStub st cr ryw) [c, a, amt]
      = (Response.Error "Insufficient balance to burn", newStub st cr ryw) := by
  simp [Burn, hamt, checkCentralBank, hrec, hlt]

theorem Burn_ok (st : Store) (cr : String) (ryw : Bool) (c a amt : String) {n : Int}
    {vs : String} (hamt : Atoi amt = (n, none)) (hrec : st (BalanceKey c a) = some vs)
    (hle : n ≤ (Atoi vs).1) :
    Burn (newStub st cr ryw) [c, a, amt]
      = (Response.Success ("Burned " ++ Itoa n ++ " " ++ c ++ " tokens from account " ++ a),
          { state := st, writes := [(BalanceKey c a, Itoa (wrapInt ((Atoi vs).1 - n)))],
            creator := cr, readYourWrites := ryw }) := by
  have hnlt : ¬ (Atoi vs).1 < n := by omega
  simp [Burn, hamt, checkCentralBank, hrec, hnlt, PutState, newStub]

theorem Transfer_ok (st : Store) (cr : String) (ryw : Bool) (c s r amt : String) {n : Int}
    {vs : String} (hamt : Atoi amt = (n, none)) (hrec : st (BalanceKey c s) = some vs)
    (hle : n ≤ (Atoi vs).1) :
    Transfer (newStub st cr ryw) [c, s, r, amt]
      = (Response.Success ("Transferred " ++ Itoa n ++ " " ++ c ++ " tokens from " ++ s
            ++ " to " ++ r),
          { state := st,
            writes := [(BalanceKey c r, Itoa (wrapInt (balance st c r + n))),
                       (BalanceKey c s, Itoa (wrapInt ((Atoi vs).1 - n)))],
            creator := cr, readYourWrites := ryw }) := by
  have hnlt : ¬ (Atoi vs).1 < n := by omega
  simp [Transfer, hamt, hrec, hnlt, PutState, newStub, balance]

/-! ## More facts about the operations -/

/-- Whatever the string, the value `Atoi` returns is a 64-bit `int`. -/
theorem Atoi_inRange (s : String) : inRange (Atoi s).1 := by
  unfold Atoi ParseInt inRange minInt maxInt
  split
  · simp
  · simp only
    split
    · simp
    · split_ifs <;> simp_all <;> omega

theorem Transfer_bad_amount (stub : Stub) (c s r amt : String) (h : (Atoi amt).2 ≠ none) :
    Transfer stub [c, s, r, amt] = (Response.Error "Amount must be an integer", stub) := by
  rcases hA : Atoi amt with ⟨v, e⟩
  cases e with
  | none => simp [hA] at h
  | some e => simp [Transfer, hA]

theorem Transfer_absent (st : Store) (cr : String) (ryw : Bool) (c s r amt : String) {n : Int}
    (hamt : Atoi amt = (n, none)) (hrec : st (BalanceKey c s) = none) :
    Transfer (newStub st cr ryw) [c, s, r, amt]
      = (Response.Error "Sender account not found", newStub st cr ryw) := by
  simp [Transfer, hamt, hrec]

theorem Transfer_insufficient (st : Store) (cr : String) (ryw : Bool) (c s r amt : String)
    {n : Int} {vs : String} (hamt : Atoi amt = (n, none))
    (hrec : st (BalanceKey c s) = some vs) (hlt : (Atoi vs).1 < n) :
    Transfer (newStub st cr ryw) [c, s, r, amt]
      = (Response.Error "Insufficient balance in sender account", newStub st cr ryw) := by
  simp [Transfer, hamt, hrec, hlt]

/-- The call `SettleDomestic` leaves the stub exactly as `Transfer` does on the same arguments. -/
theorem SettleDomestic_stub (stub : Stub) (args : List String) :
    (SettleDomestic stub args).2 = (Transfer stub args).2 := by
  unfold SettleDomestic Transfer
  split
  · split
    · rfl
    · simp only
      split
      · rfl
      · split_ifs <;> rfl
  · rfl

/-! ## Non-negative records -/

theorem nonNegRecord_Itoa {x : Int} (h0 : 0 ≤ x) (hx : x ≤ maxInt) : nonNegRecord (Itoa x) := by
  have hr : inRange x := ⟨by unfold minInt; omega, hx⟩
  simp [nonNegRecord, Atoi_Itoa hr, h0]

theorem nonNegRecord_Itoa_wrap {x : Int} (h0 : 0 ≤ x) (hx : x ≤ maxInt) :
    nonNegRecord (Itoa (wrapInt x)) := by
  rw [wrapInt_of_inRange ⟨by unfold minInt; omega, hx⟩]
  exact nonNegRecord_Itoa h0 hx

theorem lookupWrite_mem {ws : List (String × String)} {key v : String}
    (h : lookupWrite ws key = some v) : ∃ p ∈ ws, p.2 = v := by
  induction ws with
  | nil => simp [lookupWrite] at h
  | cons p ws ih =>
    obtain ⟨k, w⟩ := p
    unfold lookupWrite at h
    split_ifs at h with hk
    · exact ⟨(k, w), List.mem_cons_self _ _, by simpa using h⟩
    · obtain ⟨q, hq, hv⟩ := ih h
      exact ⟨q, List.mem_cons_of_mem _ hq, hv⟩

theorem NonNegative_commit (stub : Stub) (hst : NonNegative stub.state)
    (hw : ∀ p ∈ stub.writes, nonNegRecord p.2) : NonNegative (commit stub) := by
  intro c a v hv
  unfold commit at hv
  split at hv
  · rename_i w hlook
    obtain ⟨p, hp, hpv⟩ := lookupWrite_mem hlook
    have := hw p hp
    rw [hpv] at this
    simpa using (Option.some.inj hv ▸ this)
  · exact hst c a v hv

theorem balance_nonneg {st : Store} (hst : NonNegative st) (c a : String) :
    0 ≤ balance st c a := by
  unfold balance readBalance
  split
  · exact le_refl _
  · rename_i b hb
    exact (hst c a b hb).2

/-! ## Failing calls write nothing -/

theorem Mint_bad_args (stub : Stub) (args : List String) (h : args.length ≠ 3) :
    Mint stub args
      = (Response.Error "Mint requires 3 arguments: currency, accountID, amount", stub) := by
  unfold Mint
  split
  · simp at h
  · rfl

theorem Burn_bad_args (stub : Stub) (args : List String) (h : args.length ≠ 3) :
    Burn stub args
      = (Response.Error "Burn requires 3 arguments: currency, accountID, amount", stub) := by
  unfold Burn
  split
  · simp at h
  · rfl

theorem Transfer_bad_args (stub : Stub) (args : List String) (h : args.length ≠ 4) :
    Transfer stub args
      = (Response.Error "Transfer requires 4 arguments: currency, sender, receiver, amount",
          stub) := by
  unfold Transfer
  split
  · simp at h
  · rfl

theorem SettleCrossBorder_bad_args (stub : Stub) (args : List String) (h : args.length ≠ 6) :
    SettleCrossBorder stub args
      = (Response.Error "SettleCrossBorder requires 6 arguments", stub) := by
  unfold SettleCrossBorder
  split
  · simp at h
  · rfl

theorem Burn_bad_amount (stub : Stub) (c a amt : String) (h : (Atoi amt).2 ≠ none) :
    Burn stub [c, a, amt] = (Response.Error "Amount must be an integer", stub) := by
  rcases hA : Atoi amt with ⟨v, e⟩
  cases e with
  | none => simp [hA] at h
  | some e => simp [Burn, hA]

theorem SettleCrossBorder_bad_amount (stub : Stub) (fc tc s r amt rate : String)
    (h : (Atoi amt).2 ≠ none) :
    SettleCrossBorder stub [fc, tc, s, r, amt, rate]
      = (Response.Error "Amount must be an integer", stub) := by
  rcases hA : Atoi amt with ⟨v, e⟩
  cases e with
  | none => simp [hA] at h
  | some e => simp [SettleCrossBorder, hA]

theorem SettleCrossBorder_bad_rate (stub : Stub) (fc tc s r amt rate : String) {n : Int}
    (hamt : Atoi amt = (n, none)) (h : (Atoi rate).2 ≠ none) :
    SettleCrossBorder stub [fc, tc, s, r, amt, rate]
      = (Response.Error "Exchange rate must be an integer", stub) := by
  rcases hA : Atoi rate with ⟨v, e⟩
  cases e with
  | none => simp [hA] at h
  | some e => simp [SettleCrossBorder, hamt, hA]

theorem SettleCrossBorder_absent (st : Store) (cr : String) (ryw : Bool)
    (fc tc s r amt rate : String) {n x : Int}
    (hamt : Atoi amt = (n, none)) (hrate : Atoi rate = (x, none))
    (hrec : st (BalanceKey fc s) = none) :
    SettleCrossBorder (newStub st cr ryw) [fc, tc, s, r, amt, rate]
      = (Response.Error "Sender account not found", newStub st cr ryw) := by
  simp [SettleCrossBorder, hamt, hrate, hrec]

theorem SettleCrossBorder_insufficient (st : Store) (cr : String) (ryw : Bool)
    (fc tc s r amt rate : String) {n x : Int} {vs : String}
    (hamt : Atoi amt = (n, none)) (hrate : Atoi rate = (x, none))
    (hrec : st (BalanceKey fc s) = some vs) (hlt : (Atoi vs).1 < n) :
    SettleCrossBorder (newStub st cr ryw) [fc, tc, s, r, amt, rate]
      = (Response.Error "Insufficient funds in sender account", newStub st cr ryw) := by
  simp [SettleCrossBorder, hamt, hrate, hrec, hlt]

/-! ## Transfer -/

/-- C1, the code evaluated: `Transfer(c, s, s, n)` with the record of `(c, s)` present,
`n ≤ balance(c, s)` and no overflow succeeds, and the balance of `(c, s)` after
it is the old balance plus `n`: the credit is the last write to the key and was
computed from the balance before the debit. -/
theorem Transfer_to_self_adds_amount (st : Store) (cr : String) (ryw : Bool)
    (c s amt vs : String) (n : Int)
    (hamt : Atoi amt = (n, none)) (hrec : st (BalanceKey c s) = some vs)
    (hle : n ≤ balance st c s) (hR : inRange (balance st c s + n)) :
    (Transfer (newStub st cr ryw) [c, s, s, amt]).1.isSuccess = true
      ∧ balance (commit (Transfer (newStub st cr ryw) [c, s, s, amt]).2) c s
          = balance st c s + n := by
  have hb : balance st c s = (Atoi vs).1 := by simp [balance, hrec, readBalance]
  rw [Transfer_ok st cr ryw c s s amt hamt hrec (by omega)]
  refine ⟨rfl, ?_⟩
  simp only [balance] at hR ⊢
  simp only [commit_two, if_true]
  rw [wrapInt_of_inRange hR]
  exact readBalance_Itoa hR

/-- C1, failing input: with balance 10, `Transfer("RWF", "A1", "A1", "5")` succeeds and
leaves balance 15, not 10. -/
theorem Transfer_to_self_adds_amount_witness :
    (5 : Int) ≤ balance (storeOf [("balance:RWF:A1", "10")]) "RWF" "A1"
      ∧ (Transfer (newStub (storeOf [("balance:RWF:A1", "10")]) "" false)
          ["RWF", "A1", "A1", "5"]).1.isSuccess = true
      ∧ balance (commit (Transfer (newStub (storeOf [("balance:RWF:A1", "10")]) "" false)
          ["RWF", "A1", "A1", "5"]).2) "RWF" "A1"
          = balance (storeOf [("balance:RWF:A1", "10")]) "RWF" "A1" + 5
      ∧ balance (commit (Transfer (newStub (storeOf [("balance:RWF:A1", "10")]) "" false)
          ["RWF", "A1", "A1", "5"]).2) "RWF" "A1" = 15 :=
  ⟨by decide,
   (Transfer_to_self_adds_amount (storeOf [("balance:RWF:A1", "10")]) "" false
      "RWF" "A1" "5" "10" 5 (by decide) (by decide) (by decide) (by decide)).1,
   (Transfer_to_self_adds_amount (storeOf [("balance:RWF:A1", "10")]) "" false
      "RWF" "A1" "5" "10" 5 (by decide) (by decide) (by decide) (by decide)).2,
   by decide⟩

/-- C2 as stated fails: every record is a decimal integer, `A1 ≠ A2`, the sender has
balance 1 and the amount is 1, the transfer succeeds, and the receiver's balance
goes from 9223372036854775807 to -9223372036854775808 instead of growing by 1. -/
theorem Transfer_credit_wraps :
    (∀ p ∈ [("balance:RWF:A1", "1"), ("balance:RWF:A2", "9223372036854775807")],
        decimalInteger p.2 = true)
      ∧ "A1" ≠ "A2"
      ∧ storeOf [("balance:RWF:A1", "1"), ("balance:RWF:A2", "9223372036854775807")]
          (BalanceKey "RWF" "A1") = some "1"
      ∧ (1 : Int) ≤ balance (storeOf [("balance:RWF:A1", "1"),
          ("balance:RWF:A2", "9223372036854775807")]) "RWF" "A1"
      ∧ (Transfer (newStub (storeOf [("balance:RWF:A1", "1"),
          ("balance:RWF:A2", "9223372036854775807")]) "" false)
          ["RWF", "A1", "A2", "1"]).1.isSuccess = true
      ∧ balance (commit (Transfer (newStub (storeOf [("balance:RWF:A1", "1"),
          ("balance:RWF:A2", "9223372036854775807")]) "" false)
          ["RWF", "A1", "A2", "1"]).2) "RWF" "A2" = -9223372036854775808
      ∧ balance (storeOf [("balance:RWF:A1", "1"),
          ("balance:RWF:A2", "9223372036854775807")]) "RWF" "A2" + 1 = 9223372036854775808 := by
  decide

/-- C2 amended: for accounts `s ≠ r`, an amount that parses to the machine integer `n`,
the record of `(c, s)` present, `n ≤ balance(c, s)`, and neither `balance(c, s) - n`
nor `balance(c, r) + n` leaving the 64-bit range: `Transfer(c, s, r, n)` succeeds,
the new balance of `(c, s)` is the old one minus `n`, the new balance of `(c, r)` is
the old one (0 without a record) plus `n`, and every other key is unchanged. -/
theorem Transfer_moves_amount (st : Store) (cr : String) (ryw : Bool)
    (c s r amt vs : String) (n : Int) (hsr : s ≠ r)
    (hamt : Atoi amt = (n, none)) (hrec : st (BalanceKey c s) = some vs)
    (hle : n ≤ balance st c s)
    (hS : inRange (balance st c s - n)) (hR : inRange (balance st c r + n)) :
    (Transfer (newStub st cr ryw) [c, s, r, amt]).1.isSuccess = true
      ∧ balance (commit (Transfer (newStub st cr ryw) [c, s, r, amt]).2) c s
          = balance st c s - n
      ∧ balance (commit (Transfer (newStub st cr ryw) [c, s, r, amt]).2) c r
          = balance st c r + n
      ∧ ∀ key, key ≠ BalanceKey c s → key ≠ BalanceKey c r →
          commit (Transfer (newStub st cr ryw) [c, s, r, amt]).2 key = st key := by
  have hb : balance st c s = (Atoi vs).1 := by simp [balance, hrec, readBalance]
  rw [Transfer_ok st cr ryw c s r amt hamt hrec (by omega)]
  simp only [balance] at hS hR hb ⊢
  refine ⟨rfl, ?_, ?_, ?_⟩
  · simp only [commit_two, if_neg (BalanceKey_ne hsr), if_true]
    rw [← hb, wrapInt_of_inRange hS]
    exact readBalance_Itoa hS
  · simp only [commit_two, if_true]
    rw [wrapInt_of_inRange hR]
    exact readBalance_Itoa hR
  · intro key hks hkr
    simp only [commit_two, if_neg hks, if_neg hkr]

/-- C2 amended, at `Transfer("RWF", "A1", "A2", "400")` with balance 1000 for A1. -/
theorem Transfer_moves_amount_witness :
    balance (commit (Transfer (newStub (storeOf [("balance:RWF:A1", "1000")]) "" false)
        ["RWF", "A1", "A2", "400"]).2) "RWF" "A1" = 1000 - 400
      ∧ balance (commit (Transfer (newStub (storeOf [("balance:RWF:A1", "1000")]) "" false)
        ["RWF", "A1", "A2", "400"]).2) "RWF" "A2" = 0 + 400 :=
  have h := Transfer_moves_amount (storeOf [("balance:RWF:A1", "1000")]) "" false
    "RWF" "A1" "A2" "400" "1000" 400 (by decide) (by decide) (by decide) (by decide)
    (by decide) (by decide)
  ⟨h.2.1, h.2.2.1⟩

/-! ## Mint -/

/-- C3 as stated fails: the only record is a decimal integer and the amount is 1 ≥ 0,
`Mint` succeeds, and the balance goes from 9223372036854775807 to
-9223372036854775808 instead of growing by 1. -/
theorem Mint_credit_wraps :
    decimalInteger "9223372036854775807" = true
      ∧ balance (storeOf [("balance:RWF:A1", "9223372036854775807")]) "RWF" "A1"
          = 9223372036854775807
      ∧ (Mint (newStub (storeOf [("balance:RWF:A1", "9223372036854775807")]) "" false)
          ["RWF", "A1", "1"]).1.isSuccess = true
      ∧ balance (commit (Mint (newStub (storeOf [("balance:RWF:A1", "9223372036854775807")])
          "" false) ["RWF", "A1", "1"]).2) "RWF" "A1" = -9223372036854775808 := by
  decide

/-- C3 amended: for an amount that parses to the machine integer `n ≥ 0` with
`balance(c, a) + n` inside the 64-bit range, `Mint(c, a, n)` succeeds, the new
balance of `(c, a)` is the old one (0 without a record) plus `n`, and no other key
of the store changes. -/
theorem Mint_adds_amount (st : Store) (cr : String) (ryw : Bool)
    (c a amt : String) (n : Int)
    (hamt : Atoi amt = (n, none)) (_hn : 0 ≤ n) (hR : inRange (balance st c a + n)) :
    (Mint (newStub st cr ryw) [c, a, amt]).1.isSuccess = true
      ∧ balance (commit (Mint (newStub st cr ryw) [c, a, amt]).2) c a = balance st c a + n
      ∧ ∀ key, key ≠ BalanceKey c a →
          commit (Mint (newStub st cr ryw) [c, a, amt]).2 key = st key := by
  rw [Mint_ok st cr ryw c a amt hamt]
  refine ⟨rfl, ?_, ?_⟩
  · rw [wrapInt_of_inRange hR]
    simp only [balance] at hR ⊢
    simp only [commit_one, if_true]
    exact readBalance_Itoa hR
  · intro key hk
    simp only [commit_one, if_neg hk]

/-- C3 amended, at `Mint("RWF", "A1", "1000")` on a store where A1 holds 5. -/
theorem Mint_adds_amount_witness :
    balance (commit (Mint (newStub (storeOf [("balance:RWF:A1", "5")]) "" false)
        ["RWF", "A1", "1000"]).2) "RWF" "A1"
      = balance (storeOf [("balance:RWF:A1", "5")]) "RWF" "A1" + 1000 :=
  (Mint_adds_amount (storeOf [("balance:RWF:A1", "5")]) "" false "RWF" "A1" "1000" 1000
    (by decide) (by decide) (by decide)).2.1

/-- C4 as stated fails: `Mint("RWF", "A1", "-5")` on the empty store does not fail; it
succeeds and writes the record "-5". -/
theorem Mint_accepts_negative_amount :
    (Mint (newStub emptyStore "" false) ["RWF", "A1", "-5"]).1
        = Response.Success "Minted -5 RWF tokens for account A1"
      ∧ (Mint (newStub emptyStore "" false) ["RWF", "A1", "-5"]).2.writes
        = [("balance:RWF:A1", "-5")] := by
  decide

/-- C4 amended: whenever `strconv.Atoi` reports an error for the amount string (it is
no decimal integer, or it is outside the 64-bit range), `Mint(c, a, amount)` fails
with "Amount must be an integer" and leaves the stub as it was: nothing is
written. -/
theorem Mint_rejects_unparsable_amount (stub : Stub) (c a amt : String)
    (h : (Atoi amt).2 ≠ none) :
    (Mint stub [c, a, amt]).1 = Response.Error "Amount must be an integer"
      ∧ (Mint stub [c, a, amt]).2 = stub := by
  rw [Mint_bad_amount stub c a amt h]
  exact ⟨rfl, rfl⟩

/-- C4 amended, at the amount "12a". -/
theorem Mint_rejects_unparsable_amount_witness :
    (Atoi "12a").2 ≠ none
      ∧ (Mint (newStub emptyStore "" false) ["RWF", "A1", "12a"]).1
          = Response.Error "Amount must be an integer"
      ∧ (Mint (newStub emptyStore "" false) ["RWF", "A1", "12a"]).2
          = newStub emptyStore "" false :=
  ⟨by decide,
   Mint_rejects_unparsable_amount (newStub emptyStore "" false) "RWF" "A1" "12a" (by decide)⟩

/-! ## Burn -/

/-- C5 as stated fails: the record holds balance 9223372036854775807 and the amount
-1 is below it, `Burn` succeeds, and what it writes is -9223372036854775808, not
the balance minus the amount. And the amount 9223372036854775808, above that
balance, is refused with "Amount must be an integer", not for lack of funds. -/
theorem Burn_debit_wraps :
    balance (storeOf [("balance:RWF:A1", "9223372036854775807")]) "RWF" "A1"
        = 9223372036854775807
      ∧ (Burn (newStub (storeOf [("balance:RWF:A1", "9223372036854775807")]) "" false)
          ["RWF", "A1", "-1"]).1.isSuccess = true
      ∧ (Burn (newStub (storeOf [("balance:RWF:A1", "9223372036854775807")]) "" false)
          ["RWF", "A1", "-1"]).2.writes = [("balance:RWF:A1", "-9223372036854775808")]
      ∧ Itoa (9223372036854775807 - (-1)) ≠ "-9223372036854775808"
      ∧ (Burn (newStub (storeOf [("balance:RWF:A1", "9223372036854775807")]) "" false)
          ["RWF", "A1", "9223372036854775808"]).1
          = Response.Error "Amount must be an integer" := by
  decide

/-- C5 amended: for a record of `(c, a)` present with balance `b` and an amount that
parses to the machine integer `n`: if `n > b`, `Burn(c, a, n)` fails with
"Insufficient balance to burn" and leaves the stub as it was (nothing written);
if `n ≤ b` and `b - n` is inside the 64-bit range, it succeeds and its one write
puts `b - n` under the key of `(c, a)`. -/
theorem Burn_checks_funds (st : Store) (cr : String) (ryw : Bool)
    (c a amt vs : String) (n : Int)
    (hamt : Atoi amt = (n, none)) (hrec : st (BalanceKey c a) = some vs) :
    (balance st c a < n →
        Burn (newStub st cr ryw) [c, a, amt]
          = (Response.Error "Insufficient balance to burn", newStub st cr ryw))
      ∧ (n ≤ balance st c a → inRange (balance st c a - n) →
        (Burn (newStub st cr ryw) [c, a, amt]).1.isSuccess = true
          ∧ (Burn (newStub st cr ryw) [c, a, amt]).2.writes
              = [(BalanceKey c a, Itoa (balance st c a - n))]) := by
  have hb : balance st c a = (Atoi vs).1 := by simp [balance, hrec, readBalance]
  constructor
  · intro hlt
    exact Burn_insufficient st cr ryw c a amt hamt hrec (by omega)
  · intro hle hS
    rw [Burn_ok st cr ryw c a amt hamt hrec (by omega), ← hb, wrapInt_of_inRange hS]
    exact ⟨rfl, rfl⟩

/-- C5 amended, at balance 500: burning 10000 is refused, burning 200 writes 300. -/
theorem Burn_checks_funds_witness :
    Burn (newStub (storeOf [("balance:RWF:A1", "500")]) "" false) ["RWF", "A1", "10000"]
        = (Response.Error "Insufficient balance to burn",
            newStub (storeOf [("balance:RWF:A1", "500")]) "" false)
      ∧ (Burn (newStub (storeOf [("balance:RWF:A1", "500")]) "" false)
          ["RWF", "A1", "200"]).2.writes = [("balance:RWF:A1", "300")] :=
  ⟨(Burn_checks_funds (storeOf [("balance:RWF:A1", "500")]) "" false
      "RWF" "A1" "10000" "500" 10000 (by decide) (by decide)).1 (by decide),
   ((Burn_checks_funds (storeOf [("balance:RWF:A1", "500")]) "" false
      "RWF" "A1" "200" "500" 200 (by decide) (by decide)).2 (by decide) (by decide)).2⟩

/-! ## SettleCrossBorder -/

theorem SettleCrossBorder_ok (st : Store) (cr : String) (ryw : Bool)
    (fc tc s r amt rate : String) {n x : Int} {vs : String}
    (hamt : Atoi amt = (n, none)) (hrate : Atoi rate = (x, none))
    (hrec : st (BalanceKey fc s) = some vs) (hle : n ≤ (Atoi vs).1) :
    SettleCrossBorder (newStub st cr ryw) [fc, tc, s, r, amt, rate]
      = (Response.Success ("Cross-border settlement complete: " ++ Itoa n ++ " " ++ fc
            ++ " debited from " ++ s ++ " and " ++ Itoa (wrapInt (n * x)) ++ " " ++ tc
            ++ " credited to " ++ r),
          { state := st,
            writes := [(BalanceKey tc r,
                Itoa (wrapInt (readBalance (GetState
                  { state := st, writes := [(BalanceKey fc s, Itoa (wrapInt ((Atoi vs).1 - n)))],
                    creator := cr, readYourWrites := ryw } (BalanceKey tc r)) + wrapInt (n * x)))),
              (BalanceKey fc s, Itoa (wrapInt ((Atoi vs).1 - n)))],
            creator := cr, readYourWrites := ryw }) := by
  have hnlt : ¬ (Atoi vs).1 < n := by omega
  simp [SettleCrossBorder, hamt, hrate, hrec, hnlt, PutState, newStub]

theorem GetState_after_write_ne (st : Store) (cr : String) (ryw : Bool) {k key : String}
    (v : String) (h : key ≠ k) :
    GetState { state := st, writes := [(k, v)], creator := cr, readYourWrites := ryw } key
      = st key := by
  cases ryw <;> simp [GetState, commit, lookupWrite, h]

/-- C6 as stated fails, in two ways. (1) Sender and receiver the same record, balance
600, amount 100, rate 5: the settlement succeeds and the one balance cannot both
drop by 100 and grow by 500; it ends at 1100 when reads see the committed state
and at 1000 when they see the invocation's own writes. (2) Distinct records, all
decimal integers, amount 1, rate 1, receiver at 9223372036854775807: the
settlement succeeds and the receiver's balance wraps to -9223372036854775808. -/
theorem SettleCrossBorder_credit_not_exact :
    ((100 : Int) ≤ balance (storeOf [("balance:RWF:A1", "600")]) "RWF" "A1"
      ∧ (SettleCrossBorder (newStub (storeOf [("balance:RWF:A1", "600")]) "" false)
          ["RWF", "RWF", "A1", "A1", "100", "5"]).1.isSuccess = true
      ∧ balance (commit (SettleCrossBorder (newStub (storeOf [("balance:RWF:A1", "600")]) ""
          false) ["RWF", "RWF", "A1", "A1", "100", "5"]).2) "RWF" "A1" = 1100
      ∧ (SettleCrossBorder (newStub (storeOf [("balance:RWF:A1", "600")]) "" true)
          ["RWF", "RWF", "A1", "A1", "100", "5"]).1.isSuccess = true
      ∧ balance (commit (SettleCrossBorder (newStub (storeOf [("balance:RWF:A1", "600")]) ""
          true) ["RWF", "RWF", "A1", "A1", "100", "5"]).2) "RWF" "A1" = 1000
      ∧ balance (storeOf [("balance:RWF:A1", "600")]) "RWF" "A1" - 100 = 500)
    ∧ ((∀ p ∈ [("balance:RWF:A1", "1"), ("balance:KES:B1", "9223372036854775807")],
          decimalInteger p.2 = true)
      ∧ (1 : Int) ≤ balance (storeOf [("balance:RWF:A1", "1"),
          ("balance:KES:B1", "9223372036854775807")]) "RWF" "A1"
      ∧ (SettleCrossBorder (newStub (storeOf [("balance:RWF:A1", "1"),
          ("balance:KES:B1", "9223372036854775807")]) "" false)
          ["RWF", "KES", "A1", "B1", "1", "1"]).1.isSuccess = true
      ∧ balance (commit (SettleCrossBorder (newStub (storeOf [("balance:RWF:A1", "1"),
          ("balance:KES:B1", "9223372036854775807")]) "" false)
          ["RWF", "KES", "A1", "B1", "1", "1"]).2) "KES" "B1" = -9223372036854775808
      ∧ balance (storeOf [("balance:RWF:A1", "1"),
          ("balance:KES:B1", "9223372036854775807")]) "KES" "B1" + 1 * 1
          = 9223372036854775808) := by
  decide

/-- C6 amended: for an amount and a rate that parse to machine integers `n` and `x`,
the record of `(fromC, s)` present, `n ≤ balance(fromC, s)`, the key of `(toC, r)`
different from the key of `(fromC, s)`, and none of `balance(fromC, s) - n`, `n * x`,
`balance(toC, r) + n * x` leaving the 64-bit range: `SettleCrossBorder` succeeds,
the balance of `(fromC, s)` decreases by exactly `n`, and the balance of `(toC, r)`
(0 without a record) increases by exactly `n * x`. -/
theorem SettleCrossBorder_moves_amount (st : Store) (cr : String) (ryw : Bool)
    (fc tc s r amt rate vs : String) (n x : Int)
    (hamt : Atoi amt = (n, none)) (hrate : Atoi rate = (x, none))
    (hrec : st (BalanceKey fc s) = some vs) (hle : n ≤ balance st fc s)
    (hkey : BalanceKey tc r ≠ BalanceKey fc s)
    (hS : inRange (balance st fc s - n)) (hC : inRange (n * x))
    (hR : inRange (balance st tc r + n * x)) :
    (SettleCrossBorder (newStub st cr ryw) [fc, tc, s, r, amt, rate]).1.isSuccess = true
      ∧ balance (commit (SettleCrossBorder (newStub st cr ryw) [fc, tc, s, r, amt, rate]).2)
          fc s = balance st fc s - n
      ∧ balance (commit (SettleCrossBorder (newStub st cr ryw) [fc, tc, s, r, amt, rate]).2)
          tc r = balance st tc r + n * x := by
  have hb : balance st fc s = (Atoi vs).1 := by simp [balance, hrec, readBalance]
  rw [SettleCrossBorder_ok st cr ryw fc tc s r amt rate hamt hrate hrec (by omega)]
  rw [GetState_after_write_ne st cr ryw _ hkey]
  simp only [balance] at hS hR hb ⊢
  refine ⟨rfl, ?_, ?_⟩
  · simp only [commit_two, if_neg (Ne.symm hkey), if_true]
    rw [← hb, wrapInt_of_inRange hS]
    exact readBalance_Itoa hS
  · simp only [commit_two, if_true]
    rw [wrapInt_of_inRange hC, wrapInt_of_inRange hR]
    exact readBalance_Itoa hR

/-- C6 amended, at `SettleCrossBorder("RWF", "KES", "A1", "B1", "100", "5")` with balance
600 for A1 in RWF. -/
theorem SettleCrossBorder_moves_amount_witness :
    balance (commit (SettleCrossBorder (newStub (storeOf [("balance:RWF:A1", "600")]) "" false)
        ["RWF", "KES", "A1", "B1", "100", "5"]).2) "RWF" "A1" = 600 - 100
      ∧ balance (commit (SettleCrossBorder (newStub (storeOf [("balance:RWF:A1", "600")]) ""
        false) ["RWF", "KES", "A1", "B1", "100", "5"]).2) "KES" "B1" = 0 + 100 * 5 :=
  (SettleCrossBorder_moves_amount (storeOf [("balance:RWF:A1", "600")]) "" false
    "RWF" "KES" "A1" "B1" "100" "5" "600" 100 5 (by decide) (by decide) (by decide)
    (by decide) (by decide) (by decide) (by decide) (by decide)).2


/-! ## Non-negativity of the balances -/

theorem Mint_NonNegative (st : Store) (cr : String) (ryw : Bool) (c a amt : String)
    (hst : NonNegative st) (hn : 0 ≤ (Atoi amt).1)
    (hR : inRange (balance st c a + (Atoi amt).1)) :
    NonNegative (commit (Mint (newStub st cr ryw) [c, a, amt]).2) := by
  rcases hA : Atoi amt with ⟨n, e⟩
  rw [hA] at hn hR
  cases e with
  | some e =>
    rw [Mint_bad_amount _ c a amt (by simp [hA]), commit_newStub]
    exact hst
  | none =>
    rw [Mint_ok st cr ryw c a amt hA]
    refine NonNegative_commit _ hst ?_
    intro p hp
    simp only [List.mem_singleton] at hp
    subst hp
    have := balance_nonneg hst c a
    exact nonNegRecord_Itoa_wrap (by simp only at hn; omega) hR.2

theorem Burn_NonNegative (st : Store) (cr : String) (ryw : Bool) (c a amt : String)
    (hst : NonNegative st) (hn : 0 ≤ (Atoi amt).1) :
    NonNegative (commit (Burn (newStub st cr ryw) [c, a, amt]).2) := by
  rcases hA : Atoi amt with ⟨n, e⟩
  rw [hA] at hn
  cases e with
  | some e =>
    rw [Burn_bad_amount _ c a amt (by simp [hA]), commit_newStub]
    exact hst
  | none =>
    cases hrec : st (BalanceKey c a) with
    | none =>
      rw [Burn_absent st cr ryw c a amt hA hrec, commit_newStub]
      exact hst
    | some vs =>
      by_cases hlt : (Atoi vs).1 < n
      · rw [Burn_insufficient st cr ryw c a amt hA hrec hlt, commit_newStub]
        exact hst
      · rw [Burn_ok st cr ryw c a amt hA hrec (by omega)]
        refine NonNegative_commit _ hst ?_
        intro p hp
        simp only [List.mem_singleton] at hp
        subst hp
        have hb := (Atoi_inRange vs).2
        exact nonNegRecord_Itoa_wrap (by omega) (by simp only at hn; omega)

theorem Transfer_NonNegative (st : Store) (cr : String) (ryw : Bool) (c s r amt : String)
    (hst : NonNegative st) (hn : 0 ≤ (Atoi amt).1)
    (hR : inRange (balance st c r + (Atoi amt).1)) :
    NonNegative (commit (Transfer (newStub st cr ryw) [c, s, r, amt]).2) := by
  rcases hA : Atoi amt with ⟨n, e⟩
  rw [hA] at hn hR
  cases e with
  | some e =>
    rw [Transfer_bad_amount _ c s r amt (by simp [hA]), commit_newStub]
    exact hst
  | none =>
    cases hrec : st (BalanceKey c s) with
    | none =>
      rw [Transfer_absent st cr ryw c s r amt hA hrec, commit_newStub]
      exact hst
    | some vs =>
      by_cases hlt : (Atoi vs).1 < n
      · rw [Transfer_insufficient st cr ryw c s r amt hA hrec hlt, commit_newStub]
        exact hst
      · rw [Transfer_ok st cr ryw c s r amt hA hrec (by omega)]
        refine NonNegative_commit _ hst ?_
        intro p hp
        simp only [List.mem_cons, List.mem_singleton, List.mem_nil_iff, or_false] at hp
        have hb := (Atoi_inRange vs).2
        have hr := balance_nonneg hst c r
        simp only at hn
        rcases hp with hp | hp
        · subst hp
          exact nonNegRecord_Itoa_wrap (by omega) hR.2
        · subst hp
          exact nonNegRecord_Itoa_wrap (by omega) (by omega)

theorem SettleCrossBorder_read_receiver (st : Store) (cr : String) (ryw : Bool)
    (fc tc s r : String) {d : Int} (hd0 : 0 ≤ d) (hd : d ≤ balance st fc s)
    (hdr : inRange d) (hst : NonNegative st) :
    0 ≤ readBalance (GetState
          { state := st, writes := [(BalanceKey fc s, Itoa d)], creator := cr,
            readYourWrites := ryw } (BalanceKey tc r))
      ∧ readBalance (GetState
          { state := st, writes := [(BalanceKey fc s, Itoa d)], creator := cr,
            readYourWrites := ryw } (BalanceKey tc r)) ≤ balance st tc r := by
  by_cases hk : BalanceKey tc r = BalanceKey fc s
  · cases ryw with
    | false =>
      simp only [GetState, Bool.false_eq_true, if_false]
      exact ⟨balance_nonneg hst tc r, le_refl _⟩
    | true =>
      simp only [GetState, if_true, commit_one, hk]
      rw [readBalance_Itoa hdr]
      refine ⟨hd0, ?_⟩
      simpa [balance, hk] using hd
  · rw [GetState_after_write_ne st cr ryw _ hk]
    exact ⟨balance_nonneg hst tc r, le_refl _⟩

theorem SettleCrossBorder_NonNegative (st : Store) (cr : String) (ryw : Bool)
    (fc tc s r amt rate : String)
    (hst : NonNegative st) (hn : 0 ≤ (Atoi amt).1) (hx : 0 ≤ (Atoi rate).1)
    (hC : inRange ((Atoi amt).1 * (Atoi rate).1))
    (hR : inRange (balance st tc r + (Atoi amt).1 * (Atoi rate).1)) :
    NonNegative (commit (SettleCrossBorder (newStub st cr ryw) [fc, tc, s, r, amt, rate]).2) := by
  rcases hA : Atoi amt with ⟨n, e⟩
  rw [hA] at hn hC hR
  cases e with
  | some e =>
    rw [SettleCrossBorder_bad_amount _ fc tc s r amt rate (by simp [hA]), commit_newStub]
    exact hst
  | none =>
    rcases hX : Atoi rate with ⟨x, e'⟩
    rw [hX] at hx hC hR
    cases e' with
    | some e' =>
      rw [SettleCrossBorder_bad_rate _ fc tc s r amt rate hA (by simp [hX]), commit_newStub]
      exact hst
    | none =>
      cases hrec : st (BalanceKey fc s) with
      | none =>
        rw [SettleCrossBorder_absent st cr ryw fc tc s r amt rate hA hX hrec, commit_newStub]
        exact hst
      | some vs =>
        by_cases hlt : (Atoi vs).1 < n
        · rw [SettleCrossBorder_insufficient st cr ryw fc tc s r amt rate hA hX hrec hlt,
            commit_newStub]
          exact hst
        · rw [SettleCrossBorder_ok st cr ryw fc tc s r amt rate hA hX hrec (by omega)]
          have hb := (Atoi_inRange vs).2
          have hbal : balance st fc s = (Atoi vs).1 := by simp [balance, hrec, readBalance]
          simp only at hn hx hC hR
          have hdr : inRange ((Atoi vs).1 - n) := ⟨by unfold minInt; omega, by omega⟩
          have hread := SettleCrossBorder_read_receiver st cr ryw fc tc s r
            (d := (Atoi vs).1 - n) (by omega) (by omega) hdr hst
          have hmul : 0 ≤ n * x := Int.mul_nonneg hn hx
          refine NonNegative_commit _ hst ?_
          intro p hp
          simp only [List.mem_cons, List.mem_singleton, List.mem_nil_iff, or_false] at hp
          rcases hp with hp | hp
          · subst hp
            rw [wrapInt_of_inRange hdr, wrapInt_of_inRange hC]
            exact nonNegRecord_Itoa_wrap (by omega) (by have := hR.2; omega)
          · subst hp
            exact nonNegRecord_Itoa_wrap (by omega) (by omega)

/-- C7 as stated fails: the empty store has no negative record, `Mint("RWF", "A1", "-5")`
succeeds on it, and the resulting store holds the negative record "-5" for
`(RWF, A1)`. -/
theorem Mint_breaks_nonNegative :
    NonNegative emptyStore
      ∧ (Mint (newStub emptyStore "" false) ["RWF", "A1", "-5"]).1.isSuccess = true
      ∧ commit (Mint (newStub emptyStore "" false) ["RWF", "A1", "-5"]).2
          (BalanceKey "RWF" "A1") = some "-5"
      ∧ ¬ nonNegRecord "-5"
      ∧ ¬ NonNegative (commit (Mint (newStub emptyStore "" false) ["RWF", "A1", "-5"]).2) := by
  refine ⟨?_, by decide, by decide, by decide, ?_⟩
  · intro c a v h
    simp [emptyStore] at h
  · intro h
    exact absurd (h "RWF" "A1" "-5" (by decide)) (by decide)

/-- C7 amended: for every store in which every balance record is a non-negative
integer, every call of Mint, Burn, Transfer, SettleDomestic or SettleCrossBorder,
with any argument list whose amount (and exchange rate) is read as a value `≥ 0`
and whose credit does not overflow the 64-bit range, results in a store in which
every balance record is again a non-negative integer. -/
theorem NonNegative_preserved (st : Store) (cr : String) (ryw : Bool) (op : Operation)
    (args : List String) (hst : NonNegative st) (hA : op.amountsNonneg args)
    (hO : op.noOverflow st args) :
    NonNegative (commit (op.run (newStub st cr ryw) args).2) := by
  cases op with
  | mint =>
    rcases args with _ | ⟨a1, _ | ⟨a2, _ | ⟨a3, _ | ⟨a4, rest⟩⟩⟩⟩
    case cons.cons.cons.nil => exact Mint_NonNegative st cr ryw a1 a2 a3 hst hA hO
    all_goals
      simp only [Operation.run]
      rw [Mint_bad_args _ _ (by simp), commit_newStub]
      exact hst
  | burn =>
    rcases args with _ | ⟨a1, _ | ⟨a2, _ | ⟨a3, _ | ⟨a4, rest⟩⟩⟩⟩
    case cons.cons.cons.nil => exact Burn_NonNegative st cr ryw a1 a2 a3 hst hA
    all_goals
      simp only [Operation.run]
      rw [Burn_bad_args _ _ (by simp), commit_newStub]
      exact hst
  | transfer =>
    rcases args with _ | ⟨a1, _ | ⟨a2, _ | ⟨a3, _ | ⟨a4, _ | ⟨a5, rest⟩⟩⟩⟩⟩
    case cons.cons.cons.cons.nil => exact Transfer_NonNegative st cr ryw a1 a2 a3 a4 hst hA hO
    all_goals
      simp only [Operation.run]
      rw [Transfer_bad_args _ _ (by simp), commit_newStub]
      exact hst
  | settleDomestic =>
    simp only [Operation.run]
    rw [SettleDomestic_stub]
    rcases args with _ | ⟨a1, _ | ⟨a2, _ | ⟨a3, _ | ⟨a4, _ | ⟨a5, rest⟩⟩⟩⟩⟩
    case cons.cons.cons.cons.nil => exact Transfer_NonNegative st cr ryw a1 a2 a3 a4 hst hA hO
    all_goals
      rw [Transfer_bad_args _ _ (by simp), commit_newStub]
      exact hst
  | settleCrossBorder =>
    rcases args with
      _ | ⟨a1, _ | ⟨a2, _ | ⟨a3, _ | ⟨a4, _ | ⟨a5, _ | ⟨a6, _ | ⟨a7, rest⟩⟩⟩⟩⟩⟩⟩
    case cons.cons.cons.cons.cons.cons.nil =>
      exact SettleCrossBorder_NonNegative st cr ryw a1 a2 a3 a4 a5 a6 hst hA.1 hA.2 hO.1 hO.2
    all_goals
      simp only [Operation.run]
      rw [SettleCrossBorder_bad_args _ _ (by simp), commit_newStub]
      exact hst

/-- C7 amended, at `Transfer("RWF", "A1", "A2", "400")` on a store where A1 holds 1000:
both resulting records are non-negative. -/
theorem NonNegative_preserved_witness :
    NonNegative (commit (Transfer (newStub (storeOf [("balance:RWF:A1", "1000")]) "" false)
      ["RWF", "A1", "A2", "400"]).2) :=
  NonNegative_preserved (storeOf [("balance:RWF:A1", "1000")]) "" false Operation.transfer
    ["RWF", "A1", "A2", "400"]
    (by
      intro c a v h
      simp only [storeOf, lookupWrite] at h
      split_ifs at h
      cases h
      decide)
    (show (0 : Int) ≤ (Atoi "400").1 by decide)
    (show inRange (balance (storeOf [("balance:RWF:A1", "1000")]) "RWF" "A2"
      + (Atoi "400").1) by decide)


/-! ## QueryBalance -/

theorem QueryBalance_eq (st : Store) (cr : String) (ryw : Bool) (c a : String) :
    QueryBalance (newStub st cr ryw) [c, a]
      = (match st (BalanceKey c a) with
          | none => Response.Error "Account not found"
          | some v => Response.Success v, newStub st cr ryw) := by
  unfold QueryBalance
  simp only [GetState_newStub]
  cases st (BalanceKey c a) <;> rfl

/-- C8: `QueryBalance(c, a)` fails with "Account not found" exactly when the key of
`(c, a)` has no record, otherwise it returns the stored bytes as they are, and in
both cases it leaves the stub as it was: nothing is written. -/
theorem QueryBalance_pure_read (st : Store) (cr : String) (ryw : Bool) (c a : String) :
    ((QueryBalance (newStub st cr ryw) [c, a]).1 = Response.Error "Account not found"
        ↔ st (BalanceKey c a) = none)
      ∧ (QueryBalance (newStub st cr ryw) [c, a]).1
          = (match st (BalanceKey c a) with
              | none => Response.Error "Account not found"
              | some v => Response.Success v)
      ∧ (QueryBalance (newStub st cr ryw) [c, a]).2 = newStub st cr ryw
      ∧ commit (QueryBalance (newStub st cr ryw) [c, a]).2 = st := by
  rw [QueryBalance_eq]
  refine ⟨?_, rfl, rfl, commit_newStub st cr ryw⟩
  cases st (BalanceKey c a) <;> simp

/-- C9: when `(c, a)` has no record, a successful `Mint(c, a, amount)`, and equally a
successful `Transfer(c, s, a, amount)` from another account `s`, is followed by a
`QueryBalance(c, a)` that succeeds and returns the decimal representation of the
amount `n` the chaincode read, and parsing those bytes gives `n` back. -/
theorem QueryBalance_after_credit (st : Store) (cr cr' : String) (ryw ryw' : Bool)
    (c a amt : String) (hrec : st (BalanceKey c a) = none) :
    ((Mint (newStub st cr ryw) [c, a, amt]).1.isSuccess = true →
        (QueryBalance (newStub (commit (Mint (newStub st cr ryw) [c, a, amt]).2) cr' ryw')
            [c, a]).1 = Response.Success (Itoa (Atoi amt).1)
          ∧ Atoi (Itoa (Atoi amt).1) = ((Atoi amt).1, none))
      ∧ (∀ s, s ≠ a → (Transfer (newStub st cr ryw) [c, s, a, amt]).1.isSuccess = true →
        (QueryBalance (newStub (commit (Transfer (newStub st cr ryw) [c, s, a, amt]).2) cr' ryw')
            [c, a]).1 = Response.Success (Itoa (Atoi amt).1)
          ∧ Atoi (Itoa (Atoi amt).1) = ((Atoi amt).1, none)) := by
  have hbal : balance st c a = 0 := by simp [balance, hrec, readBalance]
  have hn := Atoi_inRange amt
  rcases hA : Atoi amt with ⟨n, e⟩
  rw [hA] at hn
  simp only at hn
  have hw : wrapInt (balance st c a + n) = n := by
    rw [hbal, zero_add]
    exact wrapInt_of_inRange hn
  constructor
  · intro hok
    cases e with
    | some e =>
      rw [Mint_bad_amount _ c a amt (by simp [hA])] at hok
      exact absurd hok (by simp [Response.isSuccess])
    | none =>
      rw [Mint_ok st cr ryw c a amt hA, QueryBalance_eq, hw]
      simp only [commit_one, if_true]
      exact ⟨trivial, Atoi_Itoa hn⟩
  · intro s hsa hok
    cases e with
    | some e =>
      rw [Transfer_bad_amount _ c s a amt (by simp [hA])] at hok
      exact absurd hok (by simp [Response.isSuccess])
    | none =>
      cases hs : st (BalanceKey c s) with
      | none =>
        rw [Transfer_absent st cr ryw c s a amt hA hs] at hok
        exact absurd hok (by simp [Response.isSuccess])
      | some vs =>
        by_cases hlt : (Atoi vs).1 < n
        · rw [Transfer_insufficient st cr ryw c s a amt hA hs hlt] at hok
          exact absurd hok (by simp [Response.isSuccess])
        · rw [Transfer_ok st cr ryw c s a amt hA hs (by omega), QueryBalance_eq, hw]
          simp only [commit_two, if_true]
          exact ⟨trivial, Atoi_Itoa hn⟩

/-- C9, at the empty store: after `Mint("RWF", "A1", "+1000")` the query returns "1000". -/
theorem QueryBalance_after_credit_witness :
    (QueryBalance (newStub (commit (Mint (newStub emptyStore "" false)
        ["RWF", "A1", "+1000"]).2) "" false) ["RWF", "A1"]).1 = Response.Success "1000"
      ∧ Atoi "1000" = (1000, none) :=
  (QueryBalance_after_credit emptyStore "" "" false false "RWF" "A1" "+1000" rfl).1 (by decide)

/-! ## The scenario of the specification -/

/-- C10: from the empty store, `Mint("RWF","A1","1000")` succeeds and A1 holds 1000;
`Transfer("RWF","A1","A2","400")` succeeds and A1 holds 600, A2 holds 400;
`SettleCrossBorder("RWF","KES","A1","B1","100","5")` succeeds and A1 holds 500 RWF,
B1 holds 500 KES; `Burn("RWF","A1","10000")` fails with "Insufficient balance to
burn", writes nothing, and the store and every balance are as before it. -/
theorem scenario_balances (ryw : Bool) :
    ((scenarioMint ryw).1.isSuccess = true
      ∧ balance (commit (scenarioMint ryw).2) "RWF" "A1" = 1000)
    ∧ ((scenarioTransfer ryw).1.isSuccess = true
      ∧ balance (commit (scenarioTransfer ryw).2) "RWF" "A1" = 600
      ∧ balance (commit (scenarioTransfer ryw).2) "RWF" "A2" = 400)
    ∧ ((scenarioSettle ryw).1.isSuccess = true
      ∧ balance (commit (scenarioSettle ryw).2) "RWF" "A1" = 500
      ∧ balance (commit (scenarioSettle ryw).2) "KES" "B1" = 500
      ∧ balance (commit (scenarioSettle ryw).2) "RWF" "A2" = 400)
    ∧ ((scenarioBurn ryw).1 = Response.Error "Insufficient balance to burn"
      ∧ (scenarioBurn ryw).2.writes = []
      ∧ commit (scenarioBurn ryw).2 = commit (scenarioSettle ryw).2
      ∧ balance (commit (scenarioBurn ryw).2) "RWF" "A1" = 500
      ∧ balance (commit (scenarioBurn ryw).2) "RWF" "A2" = 400
      ∧ balance (commit (scenarioBurn ryw).2) "KES" "B1" = 500) := by
  have hburn : scenarioBurn ryw = (Response.Error "Insufficient balance to burn",
      newStub (commit (scenarioSettle ryw).2) "" ryw) := by
    cases ryw
    · exact @Burn_insufficient _ "" false "RWF" "A1" "10000" 10000 "500"
        (by decide) (by decide) (by decide)
    · exact @Burn_insufficient _ "" true "RWF" "A1" "10000" 10000 "500"
        (by decide) (by decide) (by decide)
  refine ⟨?_, ?_, ?_, ?_⟩
  · cases ryw <;> decide
  · cases ryw <;> decide
  · cases ryw <;> decide
  · rw [hburn, commit_newStub]
    refine ⟨rfl, rfl, rfl, ?_⟩
    cases ryw <;> decide


/-! ## SettleDomestic and Transfer -/

theorem SettleDomestic_isSuccess (stub : Stub) (args : List String) :
    (SettleDomestic stub args).1.isSuccess = (Transfer stub args).1.isSuccess := by
  unfold SettleDomestic Transfer
  split
  · split
    · rfl
    · simp only
      split
      · rfl
      · split_ifs <;> rfl
  · rfl

theorem SettleDomestic_failureKind (stub : Stub) (args : List String) :
    failureKind (SettleDomestic stub args).1 = failureKind (Transfer stub args).1 := by
  unfold SettleDomestic Transfer
  split
  · split
    · rfl
    · simp only
      split
      · rfl
      · split_ifs
        · show failureKind (Response.Error "Insufficient funds in sender account")
            = failureKind (Response.Error "Insufficient balance in sender account")
          decide
        · rfl
  · show failureKind (Response.Error "SettleDomestic requires 4 arguments")
      = failureKind (Response.Error
          "Transfer requires 4 arguments: currency, sender, receiver, amount")
    decide

/-- C11: for every stub state and every argument list, `SettleDomestic` succeeds
exactly when `Transfer` succeeds, fails with the same kind of failure (invalid
argument, not-found, insufficient funds) when it fails, and issues the same
writes, so the two produce the same resulting store. -/
theorem SettleDomestic_equiv_Transfer (stub : Stub) (args : List String) :
    (SettleDomestic stub args).1.isSuccess = (Transfer stub args).1.isSuccess
      ∧ failureKind (SettleDomestic stub args).1 = failureKind (Transfer stub args).1
      ∧ (SettleDomestic stub args).2 = (Transfer stub args).2
      ∧ commit (SettleDomestic stub args).2 = commit (Transfer stub args).2 := by
  refine ⟨SettleDomestic_isSuccess stub args, SettleDomestic_failureKind stub args,
    SettleDomestic_stub stub args, ?_⟩
  rw [SettleDomestic_stub]


/-! ## The key scheme -/

theorem split_at_separator :
    ∀ (l₁ l₂ r₁ r₂ : List Char), ':' ∉ l₁ → ':' ∉ l₂ →
      l₁ ++ ':' :: r₁ = l₂ ++ ':' :: r₂ → l₁ = l₂ ∧ r₁ = r₂ := by
  intro l₁
  induction l₁ with
  | nil =>
    intro l₂ r₁ r₂ _ h₂ h
    cases l₂ with
    | nil => exact ⟨rfl, by simpa using h⟩
    | cons y l₂ =>
      simp only [List.nil_append, List.cons_append, List.cons.injEq] at h
      exact absurd (h.1 ▸ List.mem_cons_self _ _) h₂
  | cons x l₁ ih =>
    intro l₂ r₁ r₂ h₁ h₂ h
    cases l₂ with
    | nil =>
      simp only [List.nil_append, List.cons_append, List.cons.injEq] at h
      exact absurd (h.1 ▸ List.mem_cons_self _ _) h₁
    | cons y l₂ =>
      simp only [List.cons_append, List.cons.injEq] at h
      obtain ⟨hl, hr⟩ := ih l₂ r₁ r₂ (fun hm => h₁ (List.mem_cons_of_mem _ hm))
        (fun hm => h₂ (List.mem_cons_of_mem _ hm)) h.2
      exact ⟨by rw [h.1, hl], hr⟩

theorem BalanceKey_data (c a : String) :
    (BalanceKey c a).data = "balance:".data ++ (c.data ++ ':' :: a.data) := by
  simp only [BalanceKey, String.data_append, List.append_assoc]
  rfl

theorem BalanceKey_fields {c₁ a₁ c₂ a₂ : String} (h : BalanceKey c₁ a₁ = BalanceKey c₂ a₂) :
    c₁.data ++ ':' :: a₁.data = c₂.data ++ ':' :: a₂.data := by
  have hd := congrArg String.data h
  rw [BalanceKey_data, BalanceKey_data] at hd
  exact List.append_cancel_left hd

theorem BalanceKey_inj_of_currency {c₁ a₁ c₂ a₂ : String} (h₁ : ¬ hasSeparator c₁)
    (h₂ : ¬ hasSeparator c₂) (h : BalanceKey c₁ a₁ = BalanceKey c₂ a₂) :
    c₁ = c₂ ∧ a₁ = a₂ := by
  obtain ⟨hc, ha⟩ := split_at_separator _ _ _ _ h₁ h₂ (BalanceKey_fields h)
  exact ⟨String.ext hc, String.ext ha⟩

theorem BalanceKey_inj_of_account {c₁ a₁ c₂ a₂ : String} (h₁ : ¬ hasSeparator a₁)
    (h₂ : ¬ hasSeparator a₂) (h : BalanceKey c₁ a₁ = BalanceKey c₂ a₂) :
    c₁ = c₂ ∧ a₁ = a₂ := by
  have hr := congrArg List.reverse (BalanceKey_fields h)
  simp only [List.reverse_append, List.reverse_cons, List.append_assoc,
    List.singleton_append] at hr
  obtain ⟨ha, hc⟩ := split_at_separator _ _ _ _
    (by simpa [hasSeparator] using h₁) (by simpa [hasSeparator] using h₂) hr
  exact ⟨String.ext (List.reverse_injective hc), String.ext (List.reverse_injective ha)⟩

/-- C12 as stated fails: the pairs `("A:B", "C")` and `("A", "B:C")` are distinct and
have the same key "balance:A:B:C". -/
theorem BalanceKey_collision :
    (("A:B", "C") : String × String) ≠ ("A", "B:C")
      ∧ BalanceKey "A:B" "C" = BalanceKey "A" "B:C"
      ∧ BalanceKey "A:B" "C" = "balance:A:B:C" := by
  decide

/-- C12 amended: for pairs `(c1, a1) ≠ (c2, a2)` in which neither currency contains
`:`, or in which neither account contains `:`, `BalanceKey(c1, a1)` differs from
`BalanceKey(c2, a2)`. -/
theorem BalanceKey_ne_of_separator_free (c₁ a₁ c₂ a₂ : String)
    (hne : (c₁, a₁) ≠ (c₂, a₂))
    (hfree : (¬ hasSeparator c₁ ∧ ¬ hasSeparator c₂)
      ∨ (¬ hasSeparator a₁ ∧ ¬ hasSeparator a₂)) :
    BalanceKey c₁ a₁ ≠ BalanceKey c₂ a₂ := by
  intro h
  rcases hfree with ⟨h₁, h₂⟩ | ⟨h₁, h₂⟩
  · obtain ⟨hc, ha⟩ := BalanceKey_inj_of_currency h₁ h₂ h
    exact hne (by rw [hc, ha])
  · obtain ⟨hc, ha⟩ := BalanceKey_inj_of_account h₁ h₂ h
    exact hne (by rw [hc, ha])

/-- C12 amended, at `("RWF", "A:1")` and `("KES", "A:1")`. -/
theorem BalanceKey_ne_of_separator_free_witness :
    BalanceKey "RWF" "A:1" ≠ BalanceKey "KES" "A:1" :=
  BalanceKey_ne_of_separator_free "RWF" "A:1" "KES" "A:1" (by decide)
    (Or.inl ⟨by decide, by decide⟩)

/-- C18: when neither currency contains `:`, equal keys come from equal currencies and
equal accounts; and every key `BalanceKey` returns, for any currency and any
account, starts with "balance:". -/
theorem BalanceKey_injective_on_separator_free (c₁ a₁ c₂ a₂ : String) :
    (¬ hasSeparator c₁ → ¬ hasSeparator c₂ →
        BalanceKey c₁ a₁ = BalanceKey c₂ a₂ → c₁ = c₂ ∧ a₁ = a₂)
      ∧ "balance:".toList <+: (BalanceKey c₁ a₁).toList
      ∧ "balance:".toList <+: (BalanceKey c₂ a₂).toList :=
  ⟨fun h₁ h₂ => BalanceKey_inj_of_currency h₁ h₂,
   ⟨_, (BalanceKey_data c₁ a₁).symm⟩,
   ⟨_, (BalanceKey_data c₂ a₂).symm⟩⟩

/-- C18, at concrete keys: the keys of `("RWF", "A:1")` and `("KES", "A:1")` differ, and
the key of `("A:B", "C")`, whose currency contains `:`, starts with "balance:". -/
theorem BalanceKey_injective_on_separator_free_witness :
    BalanceKey "RWF" "A:1" ≠ BalanceKey "KES" "A:1"
      ∧ "balance:".toList <+: (BalanceKey "A:B" "C").toList
      ∧ hasSeparator "A:B" :=
  ⟨fun h => absurd ((BalanceKey_injective_on_separator_free "RWF" "A:1" "KES" "A:1").1
      (by decide) (by decide) h).1 (by decide),
   (BalanceKey_injective_on_separator_free "A:B" "C" "A:B" "C").2.1,
   by decide⟩


/-! ## Records a call leaves alone -/

theorem Mint_frame (st : Store) (cr : String) (ryw : Bool) (c a amt : String) {key : String}
    (h : key ≠ BalanceKey c a) :
    commit (Mint (newStub st cr ryw) [c, a, amt]).2 key = st key := by
  rcases hA : Atoi amt with ⟨n, e⟩
  cases e with
  | some e => rw [Mint_bad_amount _ c a amt (by simp [hA]), commit_newStub]
  | none => rw [Mint_ok st cr ryw c a amt hA, commit_one, if_neg h]

theorem Burn_frame (st : Store) (cr : String) (ryw : Bool) (c a amt : String) {key : String}
    (h : key ≠ BalanceKey c a) :
    commit (Burn (newStub st cr ryw) [c, a, amt]).2 key = st key := by
  rcases hA : Atoi amt with ⟨n, e⟩
  cases e with
  | some e => rw [Burn_bad_amount _ c a amt (by simp [hA]), commit_newStub]
  | none =>
    cases hrec : st (BalanceKey c a) with
    | none => rw [Burn_absent st cr ryw c a amt hA hrec, commit_newStub]
    | some vs =>
      by_cases hlt : (Atoi vs).1 < n
      · rw [Burn_insufficient st cr ryw c a amt hA hrec hlt, commit_newStub]
      · rw [Burn_ok st cr ryw c a amt hA hrec (by omega), commit_one, if_neg h]

theorem Transfer_frame (st : Store) (cr : String) (ryw : Bool) (c s r amt : String)
    {key : String} (hs : key ≠ BalanceKey c s) (hr : key ≠ BalanceKey c r) :
    commit (Transfer (newStub st cr ryw) [c, s, r, amt]).2 key = st key := by
  rcases hA : Atoi amt with ⟨n, e⟩
  cases e with
  | some e => rw [Transfer_bad_amount _ c s r amt (by simp [hA]), commit_newStub]
  | none =>
    cases hrec : st (BalanceKey c s) with
    | none => rw [Transfer_absent st cr ryw c s r amt hA hrec, commit_newStub]
    | some vs =>
      by_cases hlt : (Atoi vs).1 < n
      · rw [Transfer_insufficient st cr ryw c s r amt hA hrec hlt, commit_newStub]
      · rw [Transfer_ok st cr ryw c s r amt hA hrec (by omega), commit_two, if_neg hr,
          if_neg hs]

theorem SettleCrossBorder_frame (st : Store) (cr : String) (ryw : Bool)
    (fc tc s r amt rate : String) {key : String}
    (hs : key ≠ BalanceKey fc s) (hr : key ≠ BalanceKey tc r) :
    commit (SettleCrossBorder (newStub st cr ryw) [fc, tc, s, r, amt, rate]).2 key
      = st key := by
  rcases hA : Atoi amt with ⟨n, e⟩
  cases e with
  | some e =>
    rw [SettleCrossBorder_bad_amount _ fc tc s r amt rate (by simp [hA]), commit_newStub]
  | none =>
    rcases hX : Atoi rate with ⟨x, e'⟩
    cases e' with
    | some e' =>
      rw [SettleCrossBorder_bad_rate _ fc tc s r amt rate hA (by simp [hX]), commit_newStub]
    | none =>
      cases hrec : st (BalanceKey fc s) with
      | none =>
        rw [SettleCrossBorder_absent st cr ryw fc tc s r amt rate hA hX hrec, commit_newStub]
      | some vs =>
        by_cases hlt : (Atoi vs).1 < n
        · rw [SettleCrossBorder_insufficient st cr ryw fc tc s r amt rate hA hX hrec hlt,
            commit_newStub]
        · rw [SettleCrossBorder_ok st cr ryw fc tc s r amt rate hA hX hrec (by omega),
            commit_two, if_neg hr, if_neg hs]

/-- A call changes no key other than the keys of the pairs it addresses. -/
theorem Operation_frame (st : Store) (cr : String) (ryw : Bool) (op : Operation)
    (args : List String) (key : String)
    (h : ∀ p ∈ op.pairs args, key ≠ BalanceKey p.1 p.2) :
    commit (op.run (newStub st cr ryw) args).2 key = st key := by
  cases op with
  | mint =>
    rcases args with _ | ⟨a1, _ | ⟨a2, _ | ⟨a3, _ | ⟨a4, rest⟩⟩⟩⟩
    case cons.cons.cons.nil =>
      exact Mint_frame st cr ryw a1 a2 a3 (h (a1, a2) (List.mem_singleton_self _))
    all_goals
      simp only [Operation.run]
      rw [Mint_bad_args _ _ (by simp), commit_newStub]
  | burn =>
    rcases args with _ | ⟨a1, _ | ⟨a2, _ | ⟨a3, _ | ⟨a4, rest⟩⟩⟩⟩
    case cons.cons.cons.nil =>
      exact Burn_frame st cr ryw a1 a2 a3 (h (a1, a2) (List.mem_singleton_self _))
    all_goals
      simp only [Operation.run]
      rw [Burn_bad_args _ _ (by simp), commit_newStub]
  | transfer =>
    rcases args with _ | ⟨a1, _ | ⟨a2, _ | ⟨a3, _ | ⟨a4, _ | ⟨a5, rest⟩⟩⟩⟩⟩
    case cons.cons.cons.cons.nil =>
      exact Transfer_frame st cr ryw a1 a2 a3 a4
        (h (a1, a2) (List.mem_cons_self _ _))
        (h (a1, a3) (List.mem_cons_of_mem _ (List.mem_singleton_self _)))
    all_goals
      simp only [Operation.run]
      rw [Transfer_bad_args _ _ (by simp), commit_newStub]
  | settleDomestic =>
    simp only [Operation.run]
    rw [SettleDomestic_stub]
    rcases args with _ | ⟨a1, _ | ⟨a2, _ | ⟨a3, _ | ⟨a4, _ | ⟨a5, rest⟩⟩⟩⟩⟩
    case cons.cons.cons.cons.nil =>
      exact Transfer_frame st cr ryw a1 a2 a3 a4
        (h (a1, a2) (List.mem_cons_self _ _))
        (h (a1, a3) (List.mem_cons_of_mem _ (List.mem_singleton_self _)))
    all_goals
      rw [Transfer_bad_args _ _ (by simp), commit_newStub]
  | settleCrossBorder =>
    rcases args with
      _ | ⟨a1, _ | ⟨a2, _ | ⟨a3, _ | ⟨a4, _ | ⟨a5, _ | ⟨a6, _ | ⟨a7, rest⟩⟩⟩⟩⟩⟩⟩
    case cons.cons.cons.cons.cons.cons.nil =>
      exact SettleCrossBorder_frame st cr ryw a1 a2 a3 a4 a5 a6
        (h (a1, a3) (List.mem_cons_self _ _))
        (h (a2, a4) (List.mem_cons_of_mem _ (List.mem_singleton_self _)))
    all_goals
      simp only [Operation.run]
      rw [SettleCrossBorder_bad_args _ _ (by simp), commit_newStub]

/-- C13 as stated fails: `Mint("A:B", "C", "5")`, whose currency contains `:`, does not
fail; it succeeds and writes under "balance:A:B:C", and the distinct pair
`("A", "B:C")` then reads that record as its own balance. -/
theorem Mint_accepts_separator :
    hasSeparator "A:B"
      ∧ (Mint (newStub emptyStore "" false) ["A:B", "C", "5"]).1.isSuccess = true
      ∧ (Mint (newStub emptyStore "" false) ["A:B", "C", "5"]).2.writes
          = [("balance:A:B:C", "5")]
      ∧ (("A:B", "C") : String × String) ≠ ("A", "B:C")
      ∧ (QueryBalance (newStub (commit (Mint (newStub emptyStore "" false)
          ["A:B", "C", "5"]).2) "" false) ["A", "B:C"]).1 = Response.Success "5" := by
  decide

/-- C13 amended: the operations accept arguments that contain `:`. For a call of Mint,
Burn, Transfer, SettleDomestic or SettleCrossBorder whose currencies contain no
`:`, every pair `(c, a)` with `c` free of `:` other than the pairs the call
addresses keeps its record: two distinct such pairs are never stored under the
same key. -/
theorem separator_free_pairs_do_not_collide (st : Store) (cr : String) (ryw : Bool)
    (op : Operation) (args : List String) (c a : String)
    (hc : ¬ hasSeparator c)
    (hp : ∀ p ∈ op.pairs args, ¬ hasSeparator p.1 ∧ p ≠ (c, a)) :
    commit (op.run (newStub st cr ryw) args).2 (BalanceKey c a) = st (BalanceKey c a) := by
  apply Operation_frame
  intro p hmem hk
  obtain ⟨hfree, hne⟩ := hp p hmem
  obtain ⟨h1, h2⟩ := BalanceKey_inj_of_currency hc hfree hk
  exact hne (Prod.ext h1.symm h2.symm)

/-- C13 amended, at `Transfer("RWF", "A1", "A2", "400")`: the record of `("KES", "A1")`
is untouched. -/
theorem separator_free_pairs_do_not_collide_witness :
    commit (Transfer (newStub (storeOf [("balance:RWF:A1", "1000"), ("balance:KES:A1", "7")])
        "" false) ["RWF", "A1", "A2", "400"]).2 (BalanceKey "KES" "A1")
      = storeOf [("balance:RWF:A1", "1000"), ("balance:KES:A1", "7")] (BalanceKey "KES" "A1") :=
  separator_free_pairs_do_not_collide
    (storeOf [("balance:RWF:A1", "1000"), ("balance:KES:A1", "7")]) "" false
    Operation.transfer ["RWF", "A1", "A2", "400"] "KES" "A1" (by decide)
    (by
      intro p hmem
      have hmem' : p ∈ [("RWF", "A1"), ("RWF", "A2")] := hmem
      simp only [List.mem_cons, List.mem_singleton, List.mem_nil_iff, or_false] at hmem'
      rcases hmem' with h | h <;> subst h <;> exact ⟨by decide, by decide⟩)


/-! ## Debit source and credit destination -/

theorem SettleDomestic_absent (st : Store) (cr : String) (ryw : Bool) (c s r amt : String)
    {n : Int} (hamt : Atoi amt = (n, none)) (hrec : st (BalanceKey c s) = none) :
    SettleDomestic (newStub st cr ryw) [c, s, r, amt]
      = (Response.Error "Sender account not found", newStub st cr ryw) := by
  simp [SettleDomestic, hamt, hrec]

theorem SettleDomestic_ok (st : Store) (cr : String) (ryw : Bool) (c s r amt : String)
    {n : Int} {vs : String} (hamt : Atoi amt = (n, none))
    (hrec : st (BalanceKey c s) = some vs) (hle : n ≤ (Atoi vs).1) :
    SettleDomestic (newStub st cr ryw) [c, s, r, amt]
      = (Response.Success ("Domestic settlement of " ++ Itoa n ++ " " ++ c ++ " from " ++ s
            ++ " to " ++ r ++ " complete"),
          { state := st,
            writes := [(BalanceKey c r, Itoa (wrapInt (balance st c r + n))),
                       (BalanceKey c s, Itoa (wrapInt ((Atoi vs).1 - n)))],
            creator := cr, readYourWrites := ryw }) := by
  have hnlt : ¬ (Atoi vs).1 < n := by omega
  simp [SettleDomestic, hamt, hrec, hnlt, PutState, newStub, balance]

theorem balance_absent {st : Store} {c a : String} (h : st (BalanceKey c a) = none) :
    balance st c a = 0 := by
  simp [balance, h, readBalance]

/-- C14: for an amount (and a rate) that parses as an integer, 0 included: without a
record for `(c, s)`, `Burn` fails with "Account not found" and `Transfer`,
`SettleDomestic` and `SettleCrossBorder` from `s` fail with "Sender account not
found", whatever the receiver's record, and nothing is written; with a record for
the sender that covers the amount and no record for the receiver, the three
succeed and create the receiver's record holding the credited amount (the amount,
and for the cross-border settlement the converted amount the chaincode
computed). -/
theorem debit_source_must_exist (st : Store) (cr : String) (ryw : Bool)
    (c tc s r amt rate : String) (n x : Int)
    (hamt : Atoi amt = (n, none)) (hrate : Atoi rate = (x, none)) :
    (st (BalanceKey c s) = none →
        Burn (newStub st cr ryw) [c, s, amt]
            = (Response.Error "Account not found", newStub st cr ryw)
          ∧ Transfer (newStub st cr ryw) [c, s, r, amt]
            = (Response.Error "Sender account not found", newStub st cr ryw)
          ∧ SettleDomestic (newStub st cr ryw) [c, s, r, amt]
            = (Response.Error "Sender account not found", newStub st cr ryw)
          ∧ SettleCrossBorder (newStub st cr ryw) [c, tc, s, r, amt, rate]
            = (Response.Error "Sender account not found", newStub st cr ryw))
      ∧ (∀ vs, st (BalanceKey c s) = some vs → n ≤ (Atoi vs).1 →
          (st (BalanceKey c r) = none →
            (Transfer (newStub st cr ryw) [c, s, r, amt]).1.isSuccess = true
              ∧ commit (Transfer (newStub st cr ryw) [c, s, r, amt]).2 (BalanceKey c r)
                  = some (Itoa n)
              ∧ (SettleDomestic (newStub st cr ryw) [c, s, r, amt]).1.isSuccess = true
              ∧ commit (SettleDomestic (newStub st cr ryw) [c, s, r, amt]).2 (BalanceKey c r)
                  = some (Itoa n))
          ∧ (st (BalanceKey tc r) = none →
            (SettleCrossBorder (newStub st cr ryw) [c, tc, s, r, amt, rate]).1.isSuccess = true
              ∧ commit (SettleCrossBorder (newStub st cr ryw) [c, tc, s, r, amt, rate]).2
                  (BalanceKey tc r) = some (Itoa (wrapInt (n * x))))) := by
  have hn : inRange n := by
    have := Atoi_inRange amt
    rw [hamt] at this
    exact this
  constructor
  · intro hrec
    exact ⟨Burn_absent st cr ryw c s amt hamt hrec,
      Transfer_absent st cr ryw c s r amt hamt hrec,
      SettleDomestic_absent st cr ryw c s r amt hamt hrec,
      SettleCrossBorder_absent st cr ryw c tc s r amt rate hamt hrate hrec⟩
  · intro vs hrec hle
    constructor
    · intro hr
      rw [Transfer_ok st cr ryw c s r amt hamt hrec hle,
        SettleDomestic_ok st cr ryw c s r amt hamt hrec hle]
      simp only [commit_two, if_true, balance_absent hr, zero_add, wrapInt_of_inRange hn]
      exact ⟨rfl, trivial, rfl, trivial⟩
    · intro hr
      have hkey : BalanceKey tc r ≠ BalanceKey c s := by
        intro hk
        rw [hk, hrec] at hr
        exact absurd hr (by simp)
      rw [SettleCrossBorder_ok st cr ryw c tc s r amt rate hamt hrate hrec hle,
        GetState_after_write_ne st cr ryw _ hkey]
      simp only [commit_two, if_true, hr, readBalance, zero_add,
        wrapInt_of_inRange (wrapInt_inRange (n * x))]
      exact ⟨rfl, trivial⟩

/-- C14, at amount "0": on the empty store the four debits fail with not-found; with
a record "10" for `("RWF", "A1")` alone, `Transfer` of 0 to A2 creates the record
"0" and `SettleCrossBorder` to `("KES", "B1")` at rate 5 creates the record "0". -/
theorem debit_source_must_exist_witness :
    (Burn (newStub emptyStore "" false) ["RWF", "A1", "0"]
        = (Response.Error "Account not found", newStub emptyStore "" false)
      ∧ Transfer (newStub emptyStore "" false) ["RWF", "A1", "A2", "0"]
        = (Response.Error "Sender account not found", newStub emptyStore "" false))
    ∧ commit (Transfer (newStub (storeOf [("balance:RWF:A1", "10")]) "" false)
        ["RWF", "A1", "A2", "0"]).2 (BalanceKey "RWF" "A2") = some "0"
    ∧ commit (SettleCrossBorder (newStub (storeOf [("balance:RWF:A1", "10")]) "" false)
        ["RWF", "KES", "A1", "B1", "0", "5"]).2 (BalanceKey "KES" "B1") = some "0" :=
  ⟨⟨((debit_source_must_exist emptyStore "" false "RWF" "KES" "A1" "A2" "0" "5" 0 5
        (by decide) (by decide)).1 rfl).1,
     ((debit_source_must_exist emptyStore "" false "RWF" "KES" "A1" "A2" "0" "5" 0 5
        (by decide) (by decide)).1 rfl).2.1⟩,
   (((debit_source_must_exist (storeOf [("balance:RWF:A1", "10")]) "" false
        "RWF" "KES" "A1" "A2" "0" "5" 0 5 (by decide) (by decide)).2 "10" (by decide)
        (by decide)).1 (by decide)).2.1,
   (((debit_source_must_exist (storeOf [("balance:RWF:A1", "10")]) "" false
        "RWF" "KES" "A1" "B1" "0" "5" 0 5 (by decide) (by decide)).2 "10" (by decide)
        (by decide)).2 (by decide)).2⟩

/-! ## Failures write nothing -/

theorem Transfer_stub_or_success (stub : Stub) (args : List String) :
    (Transfer stub args).2 = stub ∨ (Transfer stub args).1.isSuccess = true := by
  unfold Transfer
  split
  · split
    · left; rfl
    · simp only
      split
      · left; rfl
      · split_ifs
        · left; rfl
        · right; rfl
  · left; rfl

theorem SettleCrossBorder_stub_or_success (stub : Stub) (args : List String) :
    (SettleCrossBorder stub args).2 = stub
      ∨ (SettleCrossBorder stub args).1.isSuccess = true := by
  unfold SettleCrossBorder
  split
  · split
    · left; rfl
    · simp only
      split
      · left; rfl
      · split
        · left; rfl
        · split_ifs
          · left; rfl
          · right; rfl
  · left; rfl

theorem isSuccess_of_failureKind {resp : Response} {k : FailureKind}
    (h : failureKind resp = some k) : resp.isSuccess = false := by
  cases resp with
  | Success p => simp [failureKind] at h
  | Error m => rfl

/-- C15: for every stub state and every argument list, when `Transfer`,
`SettleDomestic` or `SettleCrossBorder` returns an invalid-argument, not-found or
insufficient-funds failure, it returns the stub as it received it: no write was
issued, and the resulting store is the input store. -/
theorem validation_failure_writes_nothing (stub : Stub) (op : Operation) (args : List String)
    (k : FailureKind)
    (hop : op = Operation.transfer ∨ op = Operation.settleDomestic
      ∨ op = Operation.settleCrossBorder)
    (_hk : k = FailureKind.InvalidArgument ∨ k = FailureKind.NotFound
      ∨ k = FailureKind.InsufficientFunds)
    (hfail : failureKind (op.run stub args).1 = some k) :
    (op.run stub args).2 = stub
      ∧ (op.run stub args).2.writes = stub.writes
      ∧ commit (op.run stub args).2 = commit stub := by
  have hns := isSuccess_of_failureKind hfail
  have hstub : (op.run stub args).2 = stub := by
    rcases hop with h | h | h <;> subst h <;> simp only [Operation.run] at hns ⊢
    · rcases Transfer_stub_or_success stub args with h | h
      · exact h
      · rw [h] at hns; exact absurd hns (by decide)
    · rw [SettleDomestic_isSuccess] at hns
      rw [SettleDomestic_stub]
      rcases Transfer_stub_or_success stub args with h | h
      · exact h
      · rw [h] at hns; exact absurd hns (by decide)
    · rcases SettleCrossBorder_stub_or_success stub args with h | h
      · exact h
      · rw [h] at hns; exact absurd hns (by decide)
  rw [hstub]
  exact ⟨rfl, rfl, rfl⟩

/-- C15, at `SettleCrossBorder("RWF", "KES", "A1", "B1", "700", "5")` with balance 600:
insufficient funds, and the receiver is not credited. -/
theorem validation_failure_writes_nothing_witness :
    failureKind (SettleCrossBorder (newStub (storeOf [("balance:RWF:A1", "600")]) "" false)
        ["RWF", "KES", "A1", "B1", "700", "5"]).1 = some FailureKind.InsufficientFunds
      ∧ (SettleCrossBorder (newStub (storeOf [("balance:RWF:A1", "600")]) "" false)
        ["RWF", "KES", "A1", "B1", "700", "5"]).2.writes = [] :=
  ⟨by decide,
   (validation_failure_writes_nothing (newStub (storeOf [("balance:RWF:A1", "600")]) "" false)
      Operation.settleCrossBorder ["RWF", "KES", "A1", "B1", "700", "5"]
      FailureKind.InsufficientFunds (Or.inr (Or.inr rfl)) (Or.inr (Or.inr rfl))
      (by decide)).2.1⟩


/-! ## Supply of a currency -/

theorem sum_after_move (f g : String → Int) (s r : String) (n : Int) (l : List String)
    (hnd : l.Nodup) (hs : s ∈ l) (hr : r ∈ l) (hsr : s ≠ r)
    (hg : ∀ a, g a = if a = s then f s - n else if a = r then f r + n else f a) :
    (l.map g).sum = (l.map f).sum := by
  rw [← List.sum_toFinset g hnd, ← List.sum_toFinset f hnd]
  have hpt : ∀ a, g a = f a + ((if a = s then -n else 0) + (if a = r then n else 0)) := by
    intro a
    rw [hg a]
    by_cases h1 : a = s
    · subst h1
      simp only [if_true, if_neg hsr]
      omega
    · by_cases h2 : a = r
      · subst h2
        simp only [if_neg h1, if_true]
        omega
      · simp only [if_neg h1, if_neg h2]
        omega
  simp only [hpt, Finset.sum_add_distrib, Finset.sum_ite_eq', List.mem_toFinset, hs, hr,
    if_true]
  simp

theorem Transfer_success_inv (st : Store) (cr : String) (ryw : Bool) (c s r amt : String)
    (hok : (Transfer (newStub st cr ryw) [c, s, r, amt]).1.isSuccess = true) :
    ∃ vs, Atoi amt = ((Atoi amt).1, none) ∧ st (BalanceKey c s) = some vs
      ∧ (Atoi amt).1 ≤ (Atoi vs).1 := by
  rcases hA : Atoi amt with ⟨n, e⟩
  cases e with
  | some e =>
    rw [Transfer_bad_amount _ c s r amt (by simp [hA])] at hok
    exact absurd hok (by simp [Response.isSuccess])
  | none =>
    cases hrec : st (BalanceKey c s) with
    | none =>
      rw [Transfer_absent st cr ryw c s r amt hA hrec] at hok
      exact absurd hok (by simp [Response.isSuccess])
    | some vs =>
      by_cases hlt : (Atoi vs).1 < n
      · rw [Transfer_insufficient st cr ryw c s r amt hA hrec hlt] at hok
        exact absurd hok (by simp [Response.isSuccess])
      · exact ⟨vs, rfl, rfl, by simp only; omega⟩

theorem Transfer_balance_after (st : Store) (cr : String) (ryw : Bool) (c s r amt : String)
    {n : Int} {vs : String} (hsr : s ≠ r) (hamt : Atoi amt = (n, none))
    (hrec : st (BalanceKey c s) = some vs) (hle : n ≤ (Atoi vs).1)
    (hS : inRange (balance st c s - n)) (hR : inRange (balance st c r + n)) (a : String) :
    balance (commit (Transfer (newStub st cr ryw) [c, s, r, amt]).2) c a
      = if a = s then balance st c s - n else if a = r then balance st c r + n
        else balance st c a := by
  have hb : balance st c s = (Atoi vs).1 := by simp [balance, hrec, readBalance]
  rw [Transfer_ok st cr ryw c s r amt hamt hrec hle]
  by_cases h1 : a = s
  · subst h1
    rw [if_pos rfl]
    simp only [balance] at hS hb ⊢
    simp only [commit_two, if_neg (BalanceKey_ne hsr), if_true]
    rw [← hb, wrapInt_of_inRange hS]
    exact readBalance_Itoa hS
  · by_cases h2 : a = r
    · subst h2
      rw [if_neg h1, if_pos rfl]
      simp only [balance] at hR ⊢
      simp only [commit_two, if_true]
      rw [wrapInt_of_inRange hR]
      exact readBalance_Itoa hR
    · rw [if_neg h1, if_neg h2]
      simp only [balance, commit_two, if_neg (BalanceKey_ne h2), if_neg (BalanceKey_ne h1)]

/-- C16 as stated fails: all records are decimal integers, `A1 ≠ A2`,
`Transfer("RWF", "A1", "A2", "1")` succeeds, and the supply of RWF over the two
accounts goes from 9223372036854775808 to -9223372036854775808. -/
theorem Transfer_supply_changes :
    (∀ p ∈ [("balance:RWF:A1", "1"), ("balance:RWF:A2", "9223372036854775807")],
        decimalInteger p.2 = true)
      ∧ "A1" ≠ "A2"
      ∧ (Transfer (newStub (storeOf [("balance:RWF:A1", "1"),
          ("balance:RWF:A2", "9223372036854775807")]) "" false)
          ["RWF", "A1", "A2", "1"]).1.isSuccess = true
      ∧ supply (storeOf [("balance:RWF:A1", "1"), ("balance:RWF:A2", "9223372036854775807")])
          "RWF" ["A1", "A2"] = 9223372036854775808
      ∧ supply (commit (Transfer (newStub (storeOf [("balance:RWF:A1", "1"),
          ("balance:RWF:A2", "9223372036854775807")]) "" false)
          ["RWF", "A1", "A2", "1"]).2) "RWF" ["A1", "A2"] = -9223372036854775808 := by
  decide

/-- C16 amended: for accounts `s ≠ r` and an amount `n` for which `Transfer(c, s, r, n)`
succeeds with neither `balance(c, s) - n` nor `balance(c, r) + n` outside the
64-bit range, the sum of the balances of currency `c` over any duplicate-free
list of accounts that contains `s` and `r` is the same after the call as before;
the same holds for `SettleDomestic`. -/
theorem Transfer_conserves_supply (st : Store) (cr : String) (ryw : Bool)
    (c s r amt : String) (accounts : List String)
    (hsr : s ≠ r) (hnd : accounts.Nodup) (hs : s ∈ accounts) (hr : r ∈ accounts)
    (hok : (Transfer (newStub st cr ryw) [c, s, r, amt]).1.isSuccess = true)
    (hS : inRange (balance st c s - (Atoi amt).1))
    (hR : inRange (balance st c r + (Atoi amt).1)) :
    supply (commit (Transfer (newStub st cr ryw) [c, s, r, amt]).2) c accounts
        = supply st c accounts
      ∧ (SettleDomestic (newStub st cr ryw) [c, s, r, amt]).1.isSuccess = true
      ∧ supply (commit (SettleDomestic (newStub st cr ryw) [c, s, r, amt]).2) c accounts
        = supply st c accounts := by
  obtain ⟨vs, hamt, hrec, hle⟩ := Transfer_success_inv st cr ryw c s r amt hok
  have hsum : supply (commit (Transfer (newStub st cr ryw) [c, s, r, amt]).2) c accounts
      = supply st c accounts :=
    sum_after_move (balance st c) _ s r (Atoi amt).1 accounts hnd hs hr hsr
      (Transfer_balance_after st cr ryw c s r amt hsr hamt hrec hle hS hR)
  refine ⟨hsum, ?_, ?_⟩
  · rw [SettleDomestic_isSuccess]
    exact hok
  · rw [SettleDomestic_stub]
    exact hsum

/-- C16 amended, at `Transfer("RWF", "A1", "A2", "400")` with A1 at 1000 and A3 at 7,
over the accounts A1, A2, A3. -/
theorem Transfer_conserves_supply_witness :
    supply (commit (Transfer (newStub (storeOf [("balance:RWF:A1", "1000"),
        ("balance:RWF:A3", "7")]) "" false) ["RWF", "A1", "A2", "400"]).2) "RWF"
        ["A1", "A2", "A3"]
      = supply (storeOf [("balance:RWF:A1", "1000"), ("balance:RWF:A3", "7")]) "RWF"
        ["A1", "A2", "A3"] :=
  (Transfer_conserves_supply (storeOf [("balance:RWF:A1", "1000"), ("balance:RWF:A3", "7")])
    "" false "RWF" "A1" "A2" "400" ["A1", "A2", "A3"] (by decide) (by decide) (by decide)
    (by decide) (by decide) (by decide) (by decide)).1


/-! ## Records are kept -/

theorem commit_ne_none (stub : Stub) {key : String} (h : stub.state key ≠ none) :
    commit stub key ≠ none := by
  unfold commit
  split
  · simp
  · exact h

theorem Mint_state (stub : Stub) (args : List String) :
    (Mint stub args).2.state = stub.state := by
  unfold Mint
  split
  · split
    · rfl
    · simp only
      split_ifs <;> rfl
  · rfl

theorem Burn_state (stub : Stub) (args : List String) :
    (Burn stub args).2.state = stub.state := by
  unfold Burn
  split
  · split
    · rfl
    · simp only
      split_ifs
      · split
        · rfl
        · split_ifs <;> rfl
      · rfl
  · rfl

theorem Transfer_state (stub : Stub) (args : List String) :
    (Transfer stub args).2.state = stub.state := by
  unfold Transfer
  split
  · split
    · rfl
    · simp only
      split
      · rfl
      · split_ifs <;> rfl
  · rfl

theorem SettleCrossBorder_state (stub : Stub) (args : List String) :
    (SettleCrossBorder stub args).2.state = stub.state := by
  unfold SettleCrossBorder
  split
  · split
    · rfl
    · simp only
      split
      · rfl
      · split
        · rfl
        · split_ifs <;> rfl
  · rfl

theorem QueryBalance_stub (stub : Stub) (args : List String) :
    (QueryBalance stub args).2 = stub := by
  unfold QueryBalance
  split
  · simp only
    split <;> rfl
  · rfl

theorem Operation_state (stub : Stub) (op : Operation) (args : List String) :
    (op.run stub args).2.state = stub.state := by
  cases op with
  | mint => exact Mint_state stub args
  | burn => exact Burn_state stub args
  | transfer => exact Transfer_state stub args
  | settleDomestic =>
    simp only [Operation.run]
    rw [SettleDomestic_stub]
    exact Transfer_state stub args
  | settleCrossBorder => exact SettleCrossBorder_state stub args

/-- C17: no call deletes a record. For every store, every call of Mint, Burn,
Transfer, SettleDomestic, SettleCrossBorder or QueryBalance with any arguments,
a key that has a record before the call has one after it. And burning the whole
balance of a present record succeeds and leaves the record "0", which a following
`QueryBalance` returns instead of failing with not-found. -/
theorem records_never_deleted (st : Store) (cr : String) (ryw : Bool) :
    (∀ (op : Operation) (args : List String) (key : String), st key ≠ none →
        commit (op.run (newStub st cr ryw) args).2 key ≠ none)
      ∧ (∀ (args : List String) (key : String), st key ≠ none →
        commit (QueryBalance (newStub st cr ryw) args).2 key ≠ none)
      ∧ (∀ (c a amt vs : String), st (BalanceKey c a) = some vs →
        Atoi amt = ((Atoi vs).1, none) →
          (Burn (newStub st cr ryw) [c, a, amt]).1.isSuccess = true
            ∧ QueryBalance (newStub (commit (Burn (newStub st cr ryw) [c, a, amt]).2) cr ryw)
                [c, a]
              = (Response.Success "0",
                  newStub (commit (Burn (newStub st cr ryw) [c, a, amt]).2) cr ryw)) := by
  refine ⟨?_, ?_, ?_⟩
  · intro op args key h
    apply commit_ne_none
    rw [Operation_state]
    exact h
  · intro args key h
    rw [QueryBalance_stub, commit_newStub]
    exact h
  · intro c a amt vs hrec hamt
    rw [Burn_ok st cr ryw c a amt hamt hrec (le_refl _), QueryBalance_eq]
    simp only [commit_one, if_true, sub_self]
    exact ⟨rfl, rfl⟩

/-- C17, at a store where `("RWF", "A1")` holds 500: after `Burn("RWF", "A1", "500")`
the query returns "0", and a transfer of 500 away from A1 keeps the record. -/
theorem records_never_deleted_witness :
    (QueryBalance (newStub (commit (Burn (newStub (storeOf [("balance:RWF:A1", "500")]) ""
        false) ["RWF", "A1", "500"]).2) "" false) ["RWF", "A1"]).1 = Response.Success "0"
      ∧ commit (Transfer (newStub (storeOf [("balance:RWF:A1", "500")]) "" false)
          ["RWF", "A1", "A2", "500"]).2 "balance:RWF:A1" ≠ none :=
  ⟨congrArg Prod.fst (((records_never_deleted (storeOf [("balance:RWF:A1", "500")]) ""
      false).2.2 "RWF" "A1" "500" "500" (by decide) (by decide)).2),
   (records_never_deleted (storeOf [("balance:RWF:A1", "500")]) "" false).1
      Operation.transfer ["RWF", "A1", "A2", "500"] "balance:RWF:A1" (by decide)⟩


/-! ## Overflow -/

theorem balance_inRange (st : Store) (c a : String) : inRange (balance st c a) := by
  unfold balance readBalance
  split
  · unfold inRange minInt maxInt
    omega
  · exact Atoi_inRange _

theorem wrapInt_above {x : Int} (h1 : maxInt < x) (h2 : x ≤ 2 * maxInt + 1) :
    wrapInt x = x - 18446744073709551616 := by
  unfold maxInt at h1 h2
  unfold wrapInt
  omega

/-- C19 as stated fails. `Mint("RWF", "A1", "1")` on balance 9223372036854775807 does not
fail and does not store 9223372036854775808: it succeeds and stores the wrapped
value -9223372036854775808. And `SettleCrossBorder` of 4611686018427387904 at rate
2 succeeds and credits the wrapped product -9223372036854775808. -/
theorem overflow_is_stored_wrapped :
    ((Mint (newStub (storeOf [("balance:RWF:A1", "9223372036854775807")]) "" false)
          ["RWF", "A1", "1"]).1.isSuccess = true
      ∧ commit (Mint (newStub (storeOf [("balance:RWF:A1", "9223372036854775807")]) "" false)
          ["RWF", "A1", "1"]).2 "balance:RWF:A1" = some "-9223372036854775808"
      ∧ Itoa (9223372036854775807 + 1) = "9223372036854775808"
      ∧ wrapInt (9223372036854775807 + 1) = -9223372036854775808)
    ∧ ((SettleCrossBorder (newStub (storeOf [("balance:RWF:A1", "4611686018427387904")]) ""
          false) ["RWF", "KES", "A1", "B1", "4611686018427387904", "2"]).1.isSuccess = true
      ∧ commit (SettleCrossBorder (newStub (storeOf [("balance:RWF:A1",
          "4611686018427387904")]) "" false)
          ["RWF", "KES", "A1", "B1", "4611686018427387904", "2"]).2 "balance:KES:B1"
          = some "-9223372036854775808"
      ∧ (4611686018427387904 : Int) * 2 = 9223372036854775808) := by
  decide

/-- C19 amended: `Mint` does not detect overflow. For an amount that parses to a machine
integer `n ≥ 0` it always succeeds and stores the 64-bit two's-complement
reduction of `b + n`: exactly `b + n` when that does not exceed the largest
`int`, and `b + n - 2^64` when it does. In `SettleCrossBorder`, with the sender's
record covering the amount and the receiver under another key, the record
written for the receiver is the reduction of its balance plus the reduced
product `amount * rate`. -/
theorem overflow_wraps (st : Store) (cr : String) (ryw : Bool)
    (c tc a r amt rate : String) (n : Int)
    (hamt : Atoi amt = (n, none)) (hn : 0 ≤ n) :
    ((Mint (newStub st cr ryw) [c, a, amt]).1.isSuccess = true
      ∧ commit (Mint (newStub st cr ryw) [c, a, amt]).2 (BalanceKey c a)
          = some (Itoa (wrapInt (balance st c a + n)))
      ∧ (balance st c a + n ≤ maxInt → wrapInt (balance st c a + n) = balance st c a + n)
      ∧ (maxInt < balance st c a + n →
          wrapInt (balance st c a + n) = balance st c a + n - 18446744073709551616))
    ∧ (∀ (x : Int) (vs : String), Atoi rate = (x, none) → st (BalanceKey c a) = some vs →
        n ≤ (Atoi vs).1 → BalanceKey tc r ≠ BalanceKey c a →
        (SettleCrossBorder (newStub st cr ryw) [c, tc, a, r, amt, rate]).1.isSuccess = true
          ∧ commit (SettleCrossBorder (newStub st cr ryw) [c, tc, a, r, amt, rate]).2
              (BalanceKey tc r)
            = some (Itoa (wrapInt (balance st tc r + wrapInt (n * x))))) := by
  have hb := balance_inRange st c a
  have hnr : inRange n := by
    have := Atoi_inRange amt
    rw [hamt] at this
    exact this
  constructor
  · rw [Mint_ok st cr ryw c a amt hamt]
    refine ⟨rfl, ?_, ?_, ?_⟩
    · simp only [commit_one, if_true]
    · intro hle
      exact wrapInt_of_inRange ⟨by have := hb.1; unfold minInt at this ⊢; omega, hle⟩
    · intro hgt
      refine wrapInt_above hgt ?_
      have h1 := hb.2
      have h2 := hnr.2
      unfold maxInt at h1 h2 ⊢
      omega
  · intro x vs hrate hrec hle hkey
    rw [SettleCrossBorder_ok st cr ryw c tc a r amt rate hamt hrate hrec hle,
      GetState_after_write_ne st cr ryw _ hkey]
    refine ⟨rfl, ?_⟩
    simp only [commit_two, if_true, balance]

/-- C19 amended, at `Mint("RWF", "A1", "1")` on balance 9223372036854775807: the record
after the call is "-9223372036854775808". -/
theorem overflow_wraps_witness :
    commit (Mint (newStub (storeOf [("balance:RWF:A1", "9223372036854775807")]) "" false)
        ["RWF", "A1", "1"]).2 (BalanceKey "RWF" "A1")
      = some (Itoa (wrapInt (balance (storeOf [("balance:RWF:A1", "9223372036854775807")])
          "RWF" "A1" + 1)))
      ∧ wrapInt (balance (storeOf [("balance:RWF:A1", "9223372036854775807")]) "RWF" "A1" + 1)
        = balance (storeOf [("balance:RWF:A1", "9223372036854775807")]) "RWF" "A1" + 1
          - 18446744073709551616 :=
  ⟨(overflow_wraps (storeOf [("balance:RWF:A1", "9223372036854775807")]) "" false
      "RWF" "KES" "A1" "B1" "1" "1" 1 (by decide) (by decide)).1.2.1,
   (overflow_wraps (storeOf [("balance:RWF:A1", "9223372036854775807")]) "" false
      "RWF" "KES" "A1" "B1" "1" "1" 1 (by decide) (by decide)).1.2.2.2 (by decide)⟩


/-! ## Conditional non-negativity -/

theorem SettleDomestic_NonNegative (st : Store) (cr : String) (ryw : Bool)
    (c s r amt : String) (hst : NonNegative st) (hn : 0 ≤ (Atoi amt).1)
    (hR : inRange (balance st c r + (Atoi amt).1)) :
    NonNegative (commit (SettleDomestic (newStub st cr ryw) [c, s, r, amt]).2) := by
  rw [SettleDomestic_stub]
  exact Transfer_NonNegative st cr ryw c s r amt hst hn hR

theorem debit_in_range {b n : Int} (hb : inRange b) (hn : 0 ≤ n) (hle : n ≤ b) :
    inRange (b - n) := by
  unfold inRange minInt maxInt at hb ⊢
  omega

/-- C20: for a store in which every balance record is a non-negative integer and a
call whose amount (and exchange rate) is read as a value `≥ 0`, with no overflow
of the credit: after Mint, Burn, Transfer, SettleDomestic and SettleCrossBorder
every balance record is again a non-negative integer. And the debit is kept
`≥ 0` by the funds check: with a sender balance below the amount Burn and
Transfer write nothing, otherwise the value they write for the sender is the
balance minus the amount, which is `≥ 0`. -/
theorem NonNegative_of_nonneg_amounts (st : Store) (cr : String) (ryw : Bool)
    (c tc s r amt rate : String)
    (hst : NonNegative st) (hn : 0 ≤ (Atoi amt).1) (hx : 0 ≤ (Atoi rate).1) :
    (inRange (balance st c r + (Atoi amt).1) →
        NonNegative (commit (Mint (newStub st cr ryw) [c, r, amt]).2)
          ∧ NonNegative (commit (Transfer (newStub st cr ryw) [c, s, r, amt]).2)
          ∧ NonNegative (commit (SettleDomestic (newStub st cr ryw) [c, s, r, amt]).2))
      ∧ NonNegative (commit (Burn (newStub st cr ryw) [c, s, amt]).2)
      ∧ (inRange ((Atoi amt).1 * (Atoi rate).1) →
          inRange (balance st tc r + (Atoi amt).1 * (Atoi rate).1) →
          NonNegative (commit (SettleCrossBorder (newStub st cr ryw)
            [c, tc, s, r, amt, rate]).2))
      ∧ (∀ (n : Int) (vs : String), Atoi amt = (n, none) → st (BalanceKey c s) = some vs →
          ((Atoi vs).1 < n →
            (Burn (newStub st cr ryw) [c, s, amt]).2.writes = []
              ∧ (Transfer (newStub st cr ryw) [c, s, r, amt]).2.writes = [])
          ∧ (n ≤ (Atoi vs).1 →
            0 ≤ (Atoi vs).1 - n
              ∧ (Burn (newStub st cr ryw) [c, s, amt]).2.writes
                  = [(BalanceKey c s, Itoa ((Atoi vs).1 - n))]
              ∧ (BalanceKey c s, Itoa ((Atoi vs).1 - n))
                  ∈ (Transfer (newStub st cr ryw) [c, s, r, amt]).2.writes)) := by
  refine ⟨?_, Burn_NonNegative st cr ryw c s amt hst hn, ?_, ?_⟩
  · intro hR
    exact ⟨Mint_NonNegative st cr ryw c r amt hst hn hR,
      Transfer_NonNegative st cr ryw c s r amt hst hn hR,
      SettleDomestic_NonNegative st cr ryw c s r amt hst hn hR⟩
  · intro hC hR
    exact SettleCrossBorder_NonNegative st cr ryw c tc s r amt rate hst hn hx hC hR
  · intro n vs hamt hrec
    rw [hamt] at hn
    simp only at hn
    constructor
    · intro hlt
      rw [Burn_insufficient st cr ryw c s amt hamt hrec hlt,
        Transfer_insufficient st cr ryw c s r amt hamt hrec hlt]
      exact ⟨rfl, rfl⟩
    · intro hle
      have hd := debit_in_range (Atoi_inRange vs) hn hle
      rw [Burn_ok st cr ryw c s amt hamt hrec hle,
        Transfer_ok st cr ryw c s r amt hamt hrec hle, wrapInt_of_inRange hd]
      refine ⟨by omega, rfl, ?_⟩
      exact List.mem_cons_of_mem _ (List.mem_singleton_self _)

/-- C20, at a store where `("RWF", "A1")` holds 600: after
`SettleCrossBorder("RWF", "KES", "A1", "B1", "100", "5")` all records are
non-negative, and `Burn("RWF", "A1", "100")` writes 500. -/
theorem NonNegative_of_nonneg_amounts_witness :
    NonNegative (commit (SettleCrossBorder (newStub (storeOf [("balance:RWF:A1", "600")]) ""
        false) ["RWF", "KES", "A1", "B1", "100", "5"]).2)
      ∧ (Burn (newStub (storeOf [("balance:RWF:A1", "600")]) "" false)
          ["RWF", "A1", "100"]).2.writes = [("balance:RWF:A1", "500")] :=
  have hst : NonNegative (storeOf [("balance:RWF:A1", "600")]) := by
    intro c a v h
    simp only [storeOf, lookupWrite] at h
    split_ifs at h
    cases h
    decide
  have h := NonNegative_of_nonneg_amounts (storeOf [("balance:RWF:A1", "600")]) "" false
    "RWF" "KES" "A1" "B1" "100" "5" hst (by decide) (by decide)
  ⟨h.2.2.1 (by decide) (by decide),
   ((h.2.2.2 100 "600" (by decide) (by decide)).2 (by decide)).2.1⟩


end Softborders
